import Mathlib

/-!
Shallow embedding of `trl/trainer/multidpo_trainer.py` (MultiDPOTrainer and
DataCollatorForPreference) and proofs about it.

Conventions:
- a 2-D integer tensor is modelled as `Tensor2`: a row list plus the size of
  dimension 1 (`width`, i.e. `t.shape[1]`); attention masks are integer
  tensors with entries 0/1, exactly as in the code;
- per-example scalars (log-probabilities, losses, rewards) are rationals;
  the transcendental torch primitives (`logsigmoid`, `sigmoid`, `exp`,
  `softplus`, `cap_exp`, `log`) are opaque parameters collected in `Prims`,
  since their numeric values never matter for the properties below;
- Python dict access `batch["key"]` on a possibly missing key is modelled by
  an `Except String` failure carrying `KeyError: key`;
- fallible code paths return `Except String` / `Option`.
-/

namespace MultiDPO

/-- A 2-D tensor of token ids (or of 0/1 attention-mask entries): the rows
together with the size of dimension 1 (`shape[1]`). -/
structure Tensor2 where
  width : ℕ
  rows : List (List ℤ)
deriving Repr, DecidableEq

/-- Modelled from the spec: `pad_to_length` (defined in `trl/trainer/utils.py`,
which is not part of the sources) applied to a prompt tensor. §4.1: prompt
variants are "each independently left-padded to the max length among
`{prompt, chosen_prompt, rejected_prompt}` using the configured pad value
(0 for masks)"; a tensor already at least as wide as the target is returned
unchanged. -/
def pad_to_length_left (t : Tensor2) (len : ℕ) (padValue : ℤ) : Tensor2 :=
  if len ≤ t.width then t
  else ⟨len, t.rows.map (fun r => List.replicate (len - t.width) padValue ++ r)⟩

/-- Modelled from the spec: `pad_to_length` (defined in `trl/trainer/utils.py`,
not part of the sources) applied to a completion tensor. §4.1: completion
variants are "right-padded to the max length among
`{chosen_response, rejected_response, response}`". -/
def pad_to_length_right (t : Tensor2) (len : ℕ) (padValue : ℤ) : Tensor2 :=
  if len ≤ t.width then t
  else ⟨len, t.rows.map (fun r => r ++ List.replicate (len - t.width) padValue)⟩

/-- `torch.cat([a, b, c, d], dim=0)`. -/
def vcat4 (a b c d : Tensor2) : Tensor2 :=
  ⟨a.width, a.rows ++ b.rows ++ c.rows ++ d.rows⟩

/-- The collated batch handed to `concatenated_inputs`: a dict of tensors.
A field that the collator did not emit is `none`, and reading it is a
`KeyError` (see `getKey`). Vision fields are omitted (no claim concerns
them). -/
structure CollatedBatch where
  prompt_input_ids : Option Tensor2 := none
  prompt_attention_mask : Option Tensor2 := none
  chosen_response_input_ids : Option Tensor2 := none
  chosen_response_attention_mask : Option Tensor2 := none
  rejected_response_input_ids : Option Tensor2 := none
  rejected_response_attention_mask : Option Tensor2 := none
  chosen_prompt_input_ids : Option Tensor2 := none
  chosen_prompt_attention_mask : Option Tensor2 := none
  rejected_prompt_input_ids : Option Tensor2 := none
  rejected_prompt_attention_mask : Option Tensor2 := none
  response_input_ids : Option Tensor2 := none
  response_attention_mask : Option Tensor2 := none
  chosen_input_ids : Option Tensor2 := none
  chosen_attention_mask : Option Tensor2 := none
  rejected_input_ids : Option Tensor2 := none
  rejected_attention_mask : Option Tensor2 := none

/-- Python dict read `batch[name]`: raises `KeyError` when absent. -/
def getKey (field : Option Tensor2) (name : String) : Except String Tensor2 :=
  match field with
  | some t => .ok t
  | none => .error ("KeyError: " ++ name)

/-- The output of `concatenated_inputs` (vision fields omitted). -/
structure ConcatenatedBatch where
  prompt_input_ids : Tensor2
  prompt_attention_mask : Tensor2
  completion_input_ids : Tensor2
  completion_attention_mask : Tensor2
deriving Repr, DecidableEq

/-- `MultiDPOTrainer.concatenated_inputs` (multidpo_trainer.py:1247-1320):
pads the three prompt variants to their common max width and stacks
`[prompt, prompt, chosen_prompt, rejected_prompt]`, pads the three response
variants to their common max width and stacks
`[chosen_response, rejected_response, response, response]`. Keys are read in
source order, so a missing key fails at its first read. -/
def concatenated_inputs (batch : CollatedBatch) (padding_value : ℤ) :
    Except String ConcatenatedBatch := do
  let prompt_ids ← getKey batch.prompt_input_ids "prompt_input_ids"
  let chosen_prompt_ids ← getKey batch.chosen_prompt_input_ids "chosen_prompt_input_ids"
  let rejected_prompt_ids ← getKey batch.rejected_prompt_input_ids "rejected_prompt_input_ids"
  let max_prompt_length := max prompt_ids.width (max chosen_prompt_ids.width rejected_prompt_ids.width)
  let padded_prompt_ids := pad_to_length_left prompt_ids max_prompt_length padding_value
  let padded_chosen_prompt_ids := pad_to_length_left chosen_prompt_ids max_prompt_length padding_value
  let padded_rejected_prompt_ids := pad_to_length_left rejected_prompt_ids max_prompt_length padding_value
  let out_prompt_input_ids := vcat4 padded_prompt_ids padded_prompt_ids
    padded_chosen_prompt_ids padded_rejected_prompt_ids
  let prompt_mask ← getKey batch.prompt_attention_mask "prompt_attention_mask"
  let chosen_prompt_mask ← getKey batch.chosen_prompt_attention_mask "chosen_prompt_attention_mask"
  let rejected_prompt_mask ← getKey batch.rejected_prompt_attention_mask "rejected_prompt_attention_mask"
  let padded_prompt_mask := pad_to_length_left prompt_mask max_prompt_length 0
  let padded_chosen_prompt_mask := pad_to_length_left chosen_prompt_mask max_prompt_length 0
  let padded_rejected_prompt_mask := pad_to_length_left rejected_prompt_mask max_prompt_length 0
  let out_prompt_attention_mask := vcat4 padded_prompt_mask padded_prompt_mask
    padded_chosen_prompt_mask padded_rejected_prompt_mask
  let chosen_response_ids ← getKey batch.chosen_response_input_ids "chosen_response_input_ids"
  let rejected_response_ids ← getKey batch.rejected_response_input_ids "rejected_response_input_ids"
  let response_ids ← getKey batch.response_input_ids "response_input_ids"
  let max_completion_length := max chosen_response_ids.width (max rejected_response_ids.width response_ids.width)
  let padded_chosen_response := pad_to_length_right chosen_response_ids max_completion_length padding_value
  let padded_rejected_response := pad_to_length_right rejected_response_ids max_completion_length padding_value
  let padded_response := pad_to_length_right response_ids max_completion_length padding_value
  let out_completion_input_ids := vcat4 padded_chosen_response padded_rejected_response
    padded_response padded_response
  let chosen_response_mask ← getKey batch.chosen_response_attention_mask "chosen_response_attention_mask"
  let rejected_response_mask ← getKey batch.rejected_response_attention_mask "rejected_response_attention_mask"
  let response_mask ← getKey batch.response_attention_mask "response_attention_mask"
  let padded_chosen_response_mask := pad_to_length_right chosen_response_mask max_completion_length 0
  let padded_rejected_response_mask := pad_to_length_right rejected_response_mask max_completion_length 0
  let padded_response_mask := pad_to_length_right response_mask max_completion_length 0
  let out_completion_attention_mask := vcat4 padded_chosen_response_mask
    padded_rejected_response_mask padded_response_mask padded_response_mask
  pure {
    prompt_input_ids := out_prompt_input_ids
    prompt_attention_mask := out_prompt_attention_mask
    completion_input_ids := out_completion_input_ids
    completion_attention_mask := out_completion_attention_mask
  }

/-- One element of the list handed to `DataCollatorForPreference.torch_call`:
a dict of token-id lists; absent keys are `none`. -/
structure CollatorExample where
  prompt_input_ids : Option (List ℤ) := none
  chosen_response_input_ids : Option (List ℤ) := none
  rejected_response_input_ids : Option (List ℤ) := none
  chosen_prompt_input_ids : Option (List ℤ) := none
  rejected_prompt_input_ids : Option (List ℤ) := none
  response_input_ids : Option (List ℤ) := none
  chosen_input_ids : Option (List ℤ) := none
  rejected_input_ids : Option (List ℤ) := none

/-- Python dict read `example[name]` on a token-id list. -/
def getKeyL (field : Option (List ℤ)) (name : String) : Except String (List ℤ) :=
  match field with
  | some l => .ok l
  | none => .error ("KeyError: " ++ name)

/-- Left-to-right effectful map over the examples list: Python's list
comprehension `[torch.tensor(example[key]) for example in examples]`, which
raises at the first example missing the key. -/
def mapME (f : CollatorExample → Except String (List ℤ)) :
    List CollatorExample → Except String (List (List ℤ))
  | [] => .ok []
  | e :: es => do
    let v ← f e
    let vs ← mapME f es
    pure (v :: vs)

/-- `torch.ones_like(input_ids)` for a 1-D id list. -/
def ones_like (ids : List ℤ) : List ℤ :=
  List.replicate ids.length 1

/-- Modelled from the spec: the `pad` helper (defined in `trl/trainer/utils.py`,
not part of the sources) stacking a list of 1-D tensors into one 2-D tensor,
padding each to the longest with `padValue`, on the left when
`padding_side="left"` and on the right otherwise (§3 Batch invariant: "prompt
tensors are left-padded; completion tensors are right-padded", matching the
worked example in the collator docstring, multidpo_trainer.py:106-129). -/
def padStack (rows : List (List ℤ)) (padValue : ℤ) (leftSide : Bool) : Tensor2 :=
  let maxLen := rows.foldr (fun r m => max r.length m) 0
  ⟨maxLen, rows.map (fun r =>
    if leftSide then List.replicate (maxLen - r.length) padValue ++ r
    else r ++ List.replicate (maxLen - r.length) padValue)⟩

/-- `DataCollatorForPreference.torch_call` (multidpo_trainer.py:135-225),
reference-log-prob and vision fields omitted. Detects the 6-key multi-objective
format by presence of all five response/prompt-variant keys in the first
example; otherwise takes the legacy 3-key branch. -/
def torch_call (examples : List CollatorExample) (pad_token_id : ℤ) :
    Except String CollatedBatch := do
  match examples with
  | [] => .error "IndexError: list index out of range"
  | e0 :: _ =>
    let is_multidpo_format :=
      e0.chosen_response_input_ids.isSome && e0.rejected_response_input_ids.isSome &&
      e0.chosen_prompt_input_ids.isSome && e0.rejected_prompt_input_ids.isSome &&
      e0.response_input_ids.isSome
    let prompt_input_ids ← mapME (fun e => getKeyL e.prompt_input_ids "prompt_input_ids") examples
    let prompt_attention_mask := prompt_input_ids.map ones_like
    if is_multidpo_format then do
      let chosen_response_input_ids ← mapME
        (fun e => getKeyL e.chosen_response_input_ids "chosen_response_input_ids") examples
      let rejected_response_input_ids ← mapME
        (fun e => getKeyL e.rejected_response_input_ids "rejected_response_input_ids") examples
      let chosen_prompt_input_ids ← mapME
        (fun e => getKeyL e.chosen_prompt_input_ids "chosen_prompt_input_ids") examples
      let rejected_prompt_input_ids ← mapME
        (fun e => getKeyL e.rejected_prompt_input_ids "rejected_prompt_input_ids") examples
      let response_input_ids ← mapME
        (fun e => getKeyL e.response_input_ids "response_input_ids") examples
      pure {
        prompt_input_ids := some (padStack prompt_input_ids pad_token_id true)
        prompt_attention_mask := some (padStack prompt_attention_mask 0 true)
        chosen_response_input_ids := some (padStack chosen_response_input_ids pad_token_id false)
        chosen_response_attention_mask := some (padStack (chosen_response_input_ids.map ones_like) 0 false)
        rejected_response_input_ids := some (padStack rejected_response_input_ids pad_token_id false)
        rejected_response_attention_mask := some (padStack (rejected_response_input_ids.map ones_like) 0 false)
        chosen_prompt_input_ids := some (padStack chosen_prompt_input_ids pad_token_id true)
        chosen_prompt_attention_mask := some (padStack (chosen_prompt_input_ids.map ones_like) 0 true)
        rejected_prompt_input_ids := some (padStack rejected_prompt_input_ids pad_token_id true)
        rejected_prompt_attention_mask := some (padStack (rejected_prompt_input_ids.map ones_like) 0 true)
        response_input_ids := some (padStack response_input_ids pad_token_id false)
        response_attention_mask := some (padStack (response_input_ids.map ones_like) 0 false)
      }
    else do
      let chosen_input_ids ← mapME
        (fun e => getKeyL e.chosen_input_ids "chosen_input_ids") examples
      let rejected_input_ids ← mapME
        (fun e => getKeyL e.rejected_input_ids "rejected_input_ids") examples
      pure {
        prompt_input_ids := some (padStack prompt_input_ids pad_token_id true)
        prompt_attention_mask := some (padStack prompt_attention_mask 0 true)
        chosen_input_ids := some (padStack chosen_input_ids pad_token_id false)
        chosen_attention_mask := some (padStack (chosen_input_ids.map ones_like) 0 false)
        rejected_input_ids := some (padStack rejected_input_ids pad_token_id false)
        rejected_attention_mask := some (padStack (rejected_input_ids.map ones_like) 0 false)
      }

/-- The 4-way split at the end of `concatenated_forward`
(multidpo_trainer.py:2022-2025): `all_logps[:n]`, `all_logps[n:2n]`,
`all_logps[2n:3n]`, `all_logps[3n:4n]`. -/
def split_logps (all_logps : List ℚ) (num_examples : ℕ) :
    List ℚ × List ℚ × List ℚ × List ℚ :=
  (all_logps.take num_examples,
   (all_logps.drop num_examples).take num_examples,
   (all_logps.drop (2 * num_examples)).take num_examples,
   (all_logps.drop (3 * num_examples)).take num_examples)

/-- One raw dataset row handed to `tokenize_row`: a dict of strings;
absent keys are `none`. -/
structure RawFeatures where
  prompt : Option String := none
  chosen_response : Option String := none
  rejected_response : Option String := none
  chosen_prompt : Option String := none
  rejected_prompt : Option String := none
  response : Option String := none
  chosen : Option String := none
  rejected : Option String := none

/-- The tokenizer as `tokenize_row` consumes it: text → token ids (via
`tokenizer(text, add_special_tokens=False)["input_ids"]`), plus the optional
bos id and the eos id (`eos_token_id`; the code appends it to every response
unconditionally, so it is modelled as present). -/
structure Tokenizer where
  tok : String → List ℤ
  bos_token_id : Option ℤ
  eos_token_id : ℤ

/-- Python `l[-k:]` for `k : ℕ`: the last `k` elements — except that
`l[-0:]` is the whole list. -/
def pyTakeLast (k : ℕ) (l : List ℤ) : List ℤ :=
  if k = 0 then l else l.drop (l.length - k)

/-- The 6-key result of `tokenize_row` (multidpo_trainer.py:834-841). -/
structure TokenizedMulti where
  prompt_input_ids : List ℤ
  chosen_response_input_ids : List ℤ
  rejected_response_input_ids : List ℤ
  chosen_prompt_input_ids : List ℤ
  rejected_prompt_input_ids : List ℤ
  response_input_ids : List ℤ
deriving Repr, DecidableEq

/-- The legacy 3-key result of `tokenize_row` (multidpo_trainer.py:865-869). -/
structure TokenizedLegacy where
  prompt_input_ids : List ℤ
  chosen_input_ids : List ℤ
  rejected_input_ids : List ℤ
deriving Repr, DecidableEq

inductive TokenizeResult where
  | multi : TokenizedMulti → TokenizeResult
  | legacy : TokenizedLegacy → TokenizeResult
deriving Repr, DecidableEq

/-- `MultiDPOTrainer.tokenize_row` (multidpo_trainer.py:788-878): format
detection, tokenization, special-token insertion, eos appending, prompt
left-truncation and response right-truncation. -/
def tokenize_row (features : RawFeatures) (tokenizer : Tokenizer)
    (max_prompt_length max_completion_length : Option ℕ)
    (add_special_tokens : Bool) : Except String TokenizeResult :=
  let is_multidpo_format :=
    features.prompt.isSome && features.chosen_response.isSome &&
    features.rejected_response.isSome && features.chosen_prompt.isSome &&
    features.rejected_prompt.isSome && features.response.isSome
  let is_standard_dpo_format :=
    features.prompt.isSome && features.chosen.isSome && features.rejected.isSome
  if is_multidpo_format then
    let prompt_input_ids := tokenizer.tok (features.prompt.getD "")
    let chosen_response_input_ids := tokenizer.tok (features.chosen_response.getD "")
    let rejected_response_input_ids := tokenizer.tok (features.rejected_response.getD "")
    let chosen_prompt_input_ids := tokenizer.tok (features.chosen_prompt.getD "")
    let rejected_prompt_input_ids := tokenizer.tok (features.rejected_prompt.getD "")
    let response_input_ids := tokenizer.tok (features.response.getD "")
    let prompt_input_ids :=
      if add_special_tokens then
        (match tokenizer.bos_token_id with
          | some bos => [bos] ++ prompt_input_ids
          | none => prompt_input_ids) ++ [tokenizer.eos_token_id]
      else prompt_input_ids
    let chosen_prompt_input_ids :=
      if add_special_tokens then
        (match tokenizer.bos_token_id with
          | some bos => [bos] ++ chosen_prompt_input_ids
          | none => chosen_prompt_input_ids) ++ [tokenizer.eos_token_id]
      else chosen_prompt_input_ids
    let rejected_prompt_input_ids :=
      if add_special_tokens then
        (match tokenizer.bos_token_id with
          | some bos => [bos] ++ rejected_prompt_input_ids
          | none => rejected_prompt_input_ids) ++ [tokenizer.eos_token_id]
      else rejected_prompt_input_ids
    let chosen_response_input_ids := chosen_response_input_ids ++ [tokenizer.eos_token_id]
    let rejected_response_input_ids := rejected_response_input_ids ++ [tokenizer.eos_token_id]
    let response_input_ids := response_input_ids ++ [tokenizer.eos_token_id]
    let prompt_input_ids :=
      match max_prompt_length with
      | some m => pyTakeLast m prompt_input_ids
      | none => prompt_input_ids
    let chosen_prompt_input_ids :=
      match max_prompt_length with
      | some m => pyTakeLast m chosen_prompt_input_ids
      | none => chosen_prompt_input_ids
    let rejected_prompt_input_ids :=
      match max_prompt_length with
      | some m => pyTakeLast m rejected_prompt_input_ids
      | none => rejected_prompt_input_ids
    let chosen_response_input_ids :=
      match max_completion_length with
      | some m => chosen_response_input_ids.take m
      | none => chosen_response_input_ids
    let rejected_response_input_ids :=
      match max_completion_length with
      | some m => rejected_response_input_ids.take m
      | none => rejected_response_input_ids
    let response_input_ids :=
      match max_completion_length with
      | some m => response_input_ids.take m
      | none => response_input_ids
    .ok (.multi {
      prompt_input_ids := prompt_input_ids
      chosen_response_input_ids := chosen_response_input_ids
      rejected_response_input_ids := rejected_response_input_ids
      chosen_prompt_input_ids := chosen_prompt_input_ids
      rejected_prompt_input_ids := rejected_prompt_input_ids
      response_input_ids := response_input_ids
    })
  else if is_standard_dpo_format then
    let prompt_input_ids := tokenizer.tok (features.prompt.getD "")
    let chosen_input_ids := tokenizer.tok (features.chosen.getD "")
    let rejected_input_ids := tokenizer.tok (features.rejected.getD "")
    let prompt_input_ids :=
      if add_special_tokens then
        (match tokenizer.bos_token_id with
          | some bos => [bos] ++ prompt_input_ids
          | none => prompt_input_ids) ++ [tokenizer.eos_token_id]
      else prompt_input_ids
    let chosen_input_ids := chosen_input_ids ++ [tokenizer.eos_token_id]
    let rejected_input_ids := rejected_input_ids ++ [tokenizer.eos_token_id]
    let prompt_input_ids :=
      match max_prompt_length with
      | some m => pyTakeLast m prompt_input_ids
      | none => prompt_input_ids
    let chosen_input_ids :=
      match max_completion_length with
      | some m => chosen_input_ids.take m
      | none => chosen_input_ids
    let rejected_input_ids :=
      match max_completion_length with
      | some m => rejected_input_ids.take m
      | none => rejected_input_ids
    .ok (.legacy {
      prompt_input_ids := prompt_input_ids
      chosen_input_ids := chosen_input_ids
      rejected_input_ids := rejected_input_ids
    })
  else
    .error ("Invalid dataset format. Expected either: MultiDPO format with keys: "
      ++ "prompt, chosen_response, rejected_response, chosen_prompt, rejected_prompt, response"
      ++ " - Standard DPO format with keys: prompt, chosen, rejected")

/-- The three `FDivergenceType` enum values (from `multidpo_config`;
`reverse_kl` is the default, giving the base log-ratio logits). -/
inductive FDivergenceType where
  | reverse_kl
  | js_divergence
  | alpha_divergence
deriving Repr, DecidableEq

/-- The transcendental torch primitives used by the loss formulas, kept
opaque: `F.logsigmoid`, `torch.sigmoid`, `torch.exp`, `F.softplus`,
`cap_exp` (clamped exponential from trainer utils) and `math.log`. -/
structure Prims where
  logsigmoid : ℚ → ℚ
  sigmoid : ℚ → ℚ
  exp : ℚ → ℚ
  softplus : ℚ → ℚ
  cap_exp : ℚ → ℚ
  log : ℚ → ℚ

/-- The immutable loss configuration consumed by `dpo_loss` /
`multidpo_loss`. `loss_type` stays a raw string because the code dispatches
on strings and must reject unknown ones. -/
structure LossConfig where
  beta : ℚ
  lambda_weight : ℚ
  reference_free : Bool
  f_divergence_type : FDivergenceType
  f_alpha_divergence_coef : ℚ
  loss_type : String
  discopop_tau : ℚ

/-- Modelled from the spec: the `RunningMoments` object (defined in
`trl/trainer/utils.py`, not part of the sources). §4.3: for `bco_pair` a
"running mean reward baseline δ ... is an exponential/online mean updated
every call"; modelled as an online mean over the observed batch-mean
rewards. -/
structure Running where
  mean : ℚ
  count : ℕ
deriving Repr, DecidableEq

/-- Modelled from the spec: `RunningMoments.update` — fold one observation
into the online mean. -/
def Running.update (r : Running) (x : ℚ) : Running :=
  ⟨(r.mean * r.count + x) / (r.count + 1), r.count + 1⟩

/-- The trainer state that `dpo_loss` can mutate: `self.label_smoothing`
(overwritten by the `exo_pair` branch when it is exactly 0) and
`self.running` (updated by the `bco_pair` branch). -/
structure TrainerState where
  label_smoothing : ℚ
  running : Running
deriving Repr, DecidableEq

/-- Elementwise combination of two 1-D tensors under torch broadcasting:
equal lengths combine pointwise, a singleton broadcasts against the other
operand, anything else is a runtime shape error. -/
def broadcast2 (f : ℚ → ℚ → ℚ) (a b : List ℚ) : Except String (List ℚ) :=
  if a.length = b.length then .ok (List.zipWith f a b)
  else
    match a, b with
    | [x], b => .ok (b.map (fun z => f x z))
    | a, [y] => .ok (a.map (fun z => f z y))
    | _, _ => .error "The size of tensor a must match the size of tensor b at non-singleton dimension 0"

/-- Insert into an ascending list (helper for `sortAsc`). -/
def insertAsc (x : ℚ) : List ℚ → List ℚ
  | [] => [x]
  | y :: ys => if x ≤ y then x :: y :: ys else y :: insertAsc x ys

/-- `torch.sort(·, dim=0)` values, ascending (used by `aot` / `aot_pair`). -/
def sortAsc : List ℚ → List ℚ
  | [] => []
  | x :: xs => insertAsc x (sortAsc xs)

/-- `tensor.mean()` for a 1-D tensor. -/
def tmean (l : List ℚ) : ℚ :=
  l.sum / l.length

/-- The list of values accepted by the `loss_type` dispatch in `dpo_loss`
(the names in the error message at multidpo_trainer.py:1569-1572). -/
def supported_loss_types : List String :=
  ["sigmoid", "hinge", "ipo", "exo_pair", "nca_pair", "robust", "bco_pair",
   "sppo_hard", "aot", "aot_pair", "discopop", "apo_zero", "apo_down"]

/-- The `ValueError` message of the unknown-`loss_type` branch of `dpo_loss`
(multidpo_trainer.py:1568-1572); the quoting/bracketing of the Python list
repr is elided, the named values are identical. -/
def unknown_loss_type_message (loss_type : String) : String :=
  "Unknown loss type: " ++ loss_type ++ ". Should be one of "
    ++ String.intercalate ", " supported_loss_types

/-- The `loss_type`-related checks in `MultiDPOTrainer.__init__`
(multidpo_trainer.py:469-479): lines 469-477 only issue a warning
(no control-flow effect,  modelled as a no-op); the only construction-time
rejection is `loss_type="kto_pair"`. -/
def init_loss_type_check (loss_type : String) : Except String Unit :=
  if loss_type = "kto_pair" then
    .error "Support for kto_pair has been removed in DPOTrainer. Please use KTOTrainer."
  else .ok ()

/-- The logits computation at the head of `dpo_loss`
(multidpo_trainer.py:1420-1453): reference-aware log-ratios, the
alpha-divergence override, otherwise `logratios - ref_logratios` (with
`ref_logratios = tensor([0])` when `reference_free`, broadcast), with the
js-divergence adjustment subtracted when selected. -/
def dpo_logits (cfg : LossConfig) (prims : Prims)
    (chosen_logps rejected_logps ref_chosen_logps ref_rejected_logps : List ℚ) :
    Except String (List ℚ) :=
  let chosen_logratios := List.zipWith
    (fun a b => a - (if cfg.reference_free then 0 else 1) * b) chosen_logps ref_chosen_logps
  let rejected_logratios := List.zipWith
    (fun a b => a - (if cfg.reference_free then 0 else 1) * b) rejected_logps ref_rejected_logps
  if cfg.f_divergence_type = .alpha_divergence then
    let alpha_coef := cfg.f_alpha_divergence_coef
    .ok (List.zipWith
      (fun r c => (prims.cap_exp (r * (-alpha_coef)) - prims.cap_exp (c * (-alpha_coef))) / alpha_coef)
      rejected_logratios chosen_logratios)
  else do
    let logratios := List.zipWith (fun a b => a - b) chosen_logps rejected_logps
    let ref_logratios :=
      if cfg.reference_free then [(0 : ℚ)]
      else List.zipWith (fun a b => a - b) ref_chosen_logps ref_rejected_logps
    let logits ← broadcast2 (fun a b => a - b) logratios ref_logratios
    if cfg.f_divergence_type = .js_divergence then
      pure (List.zipWith3 (fun l c r => l - (prims.softplus c - prims.softplus r))
        logits chosen_logratios rejected_logratios)
    else
      pure logits

/-- `MultiDPOTrainer.dpo_loss` (multidpo_trainer.py:1392-1577): the pairwise
preference loss. Returns the per-example losses, the chosen and rejected
rewards (multidpo_trainer.py:1574-1575), and the trainer state after the
call (`label_smoothing` overwritten by `exo_pair` when exactly 0, the
running mean updated by `bco_pair`). -/
def dpo_loss (cfg : LossConfig) (prims : Prims) (st : TrainerState)
    (chosen_logps rejected_logps ref_chosen_logps ref_rejected_logps : List ℚ) :
    Except String (List ℚ × List ℚ × List ℚ × TrainerState) := do
  let β := cfg.beta
  let chosen_logratios := List.zipWith
    (fun a b => a - (if cfg.reference_free then 0 else 1) * b) chosen_logps ref_chosen_logps
  let rejected_logratios := List.zipWith
    (fun a b => a - (if cfg.reference_free then 0 else 1) * b) rejected_logps ref_rejected_logps
  let logits ← dpo_logits cfg prims chosen_logps rejected_logps ref_chosen_logps ref_rejected_logps
  let (losses, st') ←
    if cfg.loss_type = "sigmoid" then
      let ls := st.label_smoothing
      pure (logits.map (fun l =>
        -(prims.logsigmoid (β * l)) * (1 - ls) - prims.logsigmoid (-(β * l)) * ls), st)
    else if cfg.loss_type = "robust" then
      let ls := st.label_smoothing
      pure (logits.map (fun l =>
        (-(prims.logsigmoid (β * l)) * (1 - ls) + prims.logsigmoid (-(β * l)) * ls)
          / (1 - 2 * ls)), st)
    else if cfg.loss_type = "exo_pair" then
      let st' := if st.label_smoothing = 0 then { st with label_smoothing := 1 / 1000 } else st
      let ls := st'.label_smoothing
      pure (logits.map (fun l =>
        prims.sigmoid (β * l) * (prims.logsigmoid (β * l) - prims.log (1 - ls))
          + prims.sigmoid (-(β * l)) * (prims.logsigmoid (-(β * l)) - prims.log ls)), st')
    else if cfg.loss_type = "hinge" then
      pure (logits.map (fun l => max 0 (1 - β * l)), st)
    else if cfg.loss_type = "ipo" then
      pure (logits.map (fun l => (l - 1 / (2 * β)) ^ 2), st)
    else if cfg.loss_type = "bco_pair" then
      let c_lr := List.zipWith (fun a b => a - b) chosen_logps ref_chosen_logps
      let r_lr := List.zipWith (fun a b => a - b) rejected_logps ref_rejected_logps
      let rewards := tmean ((c_lr.map (fun x => β * x)) ++ (r_lr.map (fun x => β * x)))
      let running' := st.running.update rewards
      let delta := running'.mean
      pure (List.zipWith (fun c r =>
        -(prims.logsigmoid (β * c - delta)) - prims.logsigmoid (-(β * r - delta))) c_lr r_lr,
        { st with running := running' })
    else if cfg.loss_type = "sppo_hard" then
      let a := List.zipWith (fun x y => x - y) chosen_logps ref_chosen_logps
      let b := List.zipWith (fun x y => x - y) rejected_logps ref_rejected_logps
      pure (List.zipWith (fun a b =>
        (a - (1 / 2) / β) ^ 2 + (b + (1 / 2) / β) ^ 2) a b, st)
    else if cfg.loss_type = "nca_pair" then
      let cr := (List.zipWith (fun x y => x - y) chosen_logps ref_chosen_logps).map (fun x => x * β)
      let rr := (List.zipWith (fun x y => x - y) rejected_logps ref_rejected_logps).map (fun x => x * β)
      pure (List.zipWith (fun c r =>
        -(prims.logsigmoid c) - (1 / 2) * prims.logsigmoid (-c)
          - (1 / 2) * prims.logsigmoid (-r)) cr rr, st)
    else if cfg.loss_type = "aot_pair" then
      let ls := st.label_smoothing
      let c_lr := List.zipWith (fun a b => a - b) chosen_logps ref_chosen_logps
      let r_lr := List.zipWith (fun a b => a - b) rejected_logps ref_rejected_logps
      let delta := List.zipWith (fun a b => a - b) (sortAsc c_lr) (sortAsc r_lr)
      pure (delta.map (fun d =>
        -(prims.logsigmoid (β * d)) * (1 - ls) - prims.logsigmoid (-(β * d)) * ls), st)
    else if cfg.loss_type = "aot" then
      let ls := st.label_smoothing
      let lr := List.zipWith (fun a b => a - b) chosen_logps rejected_logps
      let ref_lr := List.zipWith (fun a b => a - b) ref_chosen_logps ref_rejected_logps
      let delta := List.zipWith (fun a b => a - b) (sortAsc lr) (sortAsc ref_lr)
      pure (delta.map (fun d =>
        -(prims.logsigmoid (β * d)) * (1 - ls) - prims.logsigmoid (-(β * d)) * ls), st)
    else if cfg.loss_type = "apo_zero" then
      pure (List.zipWith (fun c r =>
        (1 - prims.sigmoid (β * c)) + prims.sigmoid (β * r)) chosen_logratios rejected_logratios, st)
    else if cfg.loss_type = "apo_down" then
      pure (List.zipWith (fun c r =>
        prims.sigmoid (β * c) + (1 - prims.sigmoid (β * (c - r)))) chosen_logratios rejected_logratios, st)
    else if cfg.loss_type = "discopop" then
      let lr := List.zipWith (fun a b => a - b) chosen_logps rejected_logps
      let ref_lr := List.zipWith (fun a b => a - b) ref_chosen_logps ref_rejected_logps
      let lg := (List.zipWith (fun a b => a - b) lr ref_lr).map (fun x => x * β)
      pure (lg.map (fun l =>
        let modulation := prims.sigmoid (l / cfg.discopop_tau)
        (-(prims.logsigmoid l)) * (1 - modulation) + prims.exp (-l) * modulation), st)
    else
      .error (unknown_loss_type_message cfg.loss_type)
  let chosen_rewards := (List.zipWith (fun a b => a - b) chosen_logps ref_chosen_logps).map
    (fun x => β * x)
  let rejected_rewards := (List.zipWith (fun a b => a - b) rejected_logps ref_rejected_logps).map
    (fun x => β * x)
  pure (losses, chosen_rewards, rejected_rewards, st')

/-- `MultiDPOTrainer.multidpo_loss` (multidpo_trainer.py:1322-1390): the
pairwise preference loss applied to the dpo group, then (threading the
trainer state) to the adpo group, combined elementwise with the λ weight.
The debug-print block (multidpo_trainer.py:1363-1386) has no semantic
effect and is omitted. -/
def multidpo_loss (cfg : LossConfig) (prims : Prims) (st : TrainerState)
    (chosen_logps_dpo rejected_logps_dpo chosen_logps_adpo rejected_logps_adpo
     ref_chosen_logps_dpo ref_rejected_logps_dpo ref_chosen_logps_adpo ref_rejected_logps_adpo :
       List ℚ) :
    Except String (List ℚ × List ℚ × List ℚ × TrainerState) := do
  let (dpo_losses, dpo_chosen_rewards, dpo_rejected_rewards, st1) ←
    dpo_loss cfg prims st chosen_logps_dpo rejected_logps_dpo
      ref_chosen_logps_dpo ref_rejected_logps_dpo
  let (adpo_losses, adpo_chosen_rewards, adpo_rejected_rewards, st2) ←
    dpo_loss cfg prims st1 chosen_logps_adpo rejected_logps_adpo
      ref_chosen_logps_adpo ref_rejected_logps_adpo
  let lw := cfg.lambda_weight
  pure (List.zipWith (fun a b => lw * a + (1 - lw) * b) dpo_losses adpo_losses,
        List.zipWith (fun a b => lw * a + (1 - lw) * b) dpo_chosen_rewards adpo_chosen_rewards,
        List.zipWith (fun a b => lw * a + (1 - lw) * b) dpo_rejected_rewards adpo_rejected_rewards,
        st2)

/-- The torch runtime error raised when dimension-0 sizes can neither match
nor broadcast. -/
def broadcast_shape_error : String :=
  "The size of tensor a must match the size of tensor b at non-singleton dimension 0"

/-- Modelled from the spec: `flush_left` (defined in `trl/trainer/utils.py`,
not part of the sources). §4.2/glossary: "a flush-left reorder: move every
row's real tokens to the front, preserving relative order" — per row, the
entries whose attention-mask value is nonzero move to the front (in order),
the padding entries follow (in order), identically in all three parallel
tensors. -/
def flush_left (am ids lm : List (List ℤ)) :
    List (List ℤ) × List (List ℤ) × List (List ℤ) :=
  let rows := List.zipWith3 (fun a i l =>
    let trip := List.zip a (List.zip i l)
    let kept := trip.filter (fun t => t.1 != 0)
    let dropped := trip.filter (fun t => t.1 == 0)
    ((kept ++ dropped).map (fun t => t.1),
     (kept ++ dropped).map (fun t => t.2.1),
     (kept ++ dropped).map (fun t => t.2.2))) am ids lm
  (rows.map (fun t => t.1), rows.map (fun t => t.2.1), rows.map (fun t => t.2.2))

/-- Modelled from the spec: `flush_right` (defined in `trl/trainer/utils.py`,
not part of the sources); glossary: compacting so all real tokens are
contiguous at the end. -/
def flush_right (am ids lm : List (List ℤ)) :
    List (List ℤ) × List (List ℤ) × List (List ℤ) :=
  let rows := List.zipWith3 (fun a i l =>
    let trip := List.zip a (List.zip i l)
    let kept := trip.filter (fun t => t.1 != 0)
    let dropped := trip.filter (fun t => t.1 == 0)
    ((dropped ++ kept).map (fun t => t.1),
     (dropped ++ kept).map (fun t => t.2.1),
     (dropped ++ kept).map (fun t => t.2.2))) am ids lm
  (rows.map (fun t => t.1), rows.map (fun t => t.2.1), rows.map (fun t => t.2.2))

/-- The `ValueError` message of the unknown-truncation-mode branch
(multidpo_trainer.py:1887-1890); the quoting/bracketing of the Python repr
is elided, the named values are identical. -/
def unknown_truncation_mode_message (truncation_mode : String) : String :=
  "Unknown truncation mode: " ++ truncation_mode ++ ". Should be one of keep_end, keep_start"

/-- The "Flush and truncate" block of `concatenated_forward` for decoder-only
models (multidpo_trainer.py:1867-1895), acting on the parallel
`(attention_mask, input_ids, loss_mask)` tensors of dimension-1 size
`width`. Truncation is attempted only when `max_length` is configured and
exceeded; otherwise the block only flushes left, whatever the
`truncation_mode` string is. -/
def flush_and_truncate (truncation_mode : String) (max_length : Option ℕ)
    (width : ℕ) (am ids lm : List (List ℤ)) :
    Except String (List (List ℤ) × List (List ℤ) × List (List ℤ)) :=
  match max_length with
  | some m =>
    if m < width then
      if truncation_mode = "keep_start" then
        let (a, i, l) := flush_left am ids lm
        .ok (a.map (fun r => r.take m), i.map (fun r => r.take m), l.map (fun r => r.take m))
      else if truncation_mode = "keep_end" then
        let (a, i, l) := flush_right am ids lm
        let a := a.map (pyTakeLast m)
        let i := i.map (pyTakeLast m)
        let l := l.map (pyTakeLast m)
        .ok (flush_left a i l)
      else
        .error (unknown_truncation_mode_message truncation_mode)
    else .ok (flush_left am ids lm)
  | none => .ok (flush_left am ids lm)

/-- `torch.min(a, b)` on two 1-D integer tensors under broadcasting. -/
def broadcastMinNat (a b : List ℕ) : Except String (List ℕ) :=
  if a.length = b.length then .ok (List.zipWith min a b)
  else
    match a, b with
    | [x], b => .ok (b.map (fun z => min x z))
    | a, [y] => .ok (a.map (fun z => min z y))
    | _, _ => .error broadcast_shape_error

/-- One row of the length-decoupling recombination: `front + ld_alpha * rear`
where positions `< pl` (and inside the completion, `< cl`) are the public
front and positions in `[pl, cl)` the remainder. -/
def ldRow (ld_alpha : ℚ) (pl cl : ℕ) (row : List ℚ) : ℚ :=
  let indexed := (List.range row.length).zip row
  let front := (indexed.map (fun p => if p.1 < pl ∧ p.1 < cl then p.2 else 0)).sum
  let rear := (indexed.map (fun p => if ¬ p.1 < pl ∧ p.1 < cl then p.2 else 0)).sum
  front + ld_alpha * rear

/-- The `ld_alpha` block of `concatenated_forward`
(multidpo_trainer.py:1995-2015): completion lengths from the loss mask,
`chosen_lengths = completion_lengths[:num_examples]`,
`rejected_lengths = completion_lengths[num_examples:]`, their broadcast
`torch.min`, duplication via `torch.cat`, and the masked front/rear
recombination `front_logps + ld_alpha * rear_logps`. The comparison
`position_ids < public_lengths.unsqueeze(1)` broadcasts dimension 0, so it
fails unless the duplicated min has as many rows as `per_token_logps`
(or either side is a singleton, in which case it is replicated). -/
def ld_adjust (ld_alpha : ℚ) (num_examples : ℕ)
    (per_token_logps : List (List ℚ)) (loss_mask : List (List Bool)) :
    Except String (List ℚ) := do
  let completion_lengths := loss_mask.map (fun row => (row.filter id).length)
  let chosen_lengths := completion_lengths.take num_examples
  let rejected_lengths := completion_lengths.drop num_examples
  let public_lengths ← broadcastMinNat chosen_lengths rejected_lengths
  let public2 := public_lengths ++ public_lengths
  let numRows := per_token_logps.length
  if public2.length = numRows then
    .ok (List.zipWith3 (ldRow ld_alpha) public2 completion_lengths per_token_logps)
  else if public2.length = 1 then
    .ok (List.zipWith3 (ldRow ld_alpha) (List.replicate numRows (public2.headD 0))
      completion_lengths per_token_logps)
  else if numRows = 1 then
    .ok (List.zipWith3 (ldRow ld_alpha) public2
      (List.replicate public2.length (completion_lengths.headD 0))
      (List.replicate public2.length (per_token_logps.headD [])))
  else
    .error broadcast_shape_error

/-! ## Helper lemmas -/

@[simp] theorem except_bind_ok {ε α β : Type} (a : α) (f : α → Except ε β) :
    (Bind.bind (Except.ok a) f : Except ε β) = f a := rfl

@[simp] theorem except_bind_error {ε α β : Type} (e : ε) (f : α → Except ε β) :
    (Bind.bind (Except.error e) f : Except ε β) = Except.error e := rfl

@[simp] theorem except_pure_eq {ε α : Type} (a : α) :
    (pure a : Except ε α) = Except.ok a := rfl

instance {ε α : Type} [DecidableEq ε] [DecidableEq α] : DecidableEq (Except ε α) :=
  fun x y =>
    match x, y with
    | .ok a, .ok b => if h : a = b then isTrue (by rw [h]) else isFalse (by simp [h])
    | .error e, .error f => if h : e = f then isTrue (by rw [h]) else isFalse (by simp [h])
    | .ok _, .error _ => isFalse (by simp)
    | .error _, .ok _ => isFalse (by simp)

theorem broadcast2_right_zero (a : List ℚ) :
    broadcast2 (fun x y => x - y) a [0] = .ok a := by
  unfold broadcast2
  rcases a with _ | ⟨x, _ | ⟨y, rest⟩⟩
  · simp
  · simp
  · simp

/-! ## C3 -/

/-- C3: with `reference_free = true` and an f-divergence type that is neither
alpha nor js, the base logits computed at the head of `dpo_loss` are exactly
`chosen_logps - rejected_logps`, elementwise, with no reference term — for
every loss type, since the base logits are computed before the `loss_type`
dispatch. -/
theorem C3_reference_free_base_logits (cfg : LossConfig) (prims : Prims)
    (chosen_logps rejected_logps ref_chosen_logps ref_rejected_logps : List ℚ)
    (href : cfg.reference_free = true)
    (hfd1 : cfg.f_divergence_type ≠ .alpha_divergence)
    (hfd2 : cfg.f_divergence_type ≠ .js_divergence) :
    dpo_logits cfg prims chosen_logps rejected_logps ref_chosen_logps ref_rejected_logps =
      .ok (List.zipWith (fun a b => a - b) chosen_logps rejected_logps) := by
  unfold dpo_logits
  rw [if_neg hfd1, href]
  simp only [if_true]
  rw [broadcast2_right_zero]
  simp [hfd2]

def primsId : Prims :=
  ⟨id, id, id, id, id, id⟩

def cfgC3 : LossConfig :=
  { beta := 1 / 10, lambda_weight := 1 / 2, reference_free := true,
    f_divergence_type := .reverse_kl, f_alpha_divergence_coef := 1,
    loss_type := "sigmoid", discopop_tau := 1 / 20 }

/-- Witness for C3 at the end-to-end scenario values of the spec (§8). -/
theorem C3_witness :
    dpo_logits cfgC3 primsId [-2, -3] [-4, -7/2] [0, 0] [0, 0] = .ok [2, 1/2] :=
  (C3_reference_free_base_logits cfgC3 primsId [-2, -3] [-4, -7/2] [0, 0] [0, 0]
    rfl (by decide) (by decide)).trans (by norm_num)

/-! ## C2 -/

theorem zipWith_comb_one (xs ys : List ℚ) (h : xs.length = ys.length) :
    List.zipWith (fun a b => 1 * a + (1 - 1) * b) xs ys = xs := by
  induction xs generalizing ys with
  | nil => simp
  | cons x xs ih =>
    rcases ys with _ | ⟨y, ys⟩
    · simp at h
    · simp only [List.zipWith_cons_cons]
      rw [ih ys (by simpa using h)]
      norm_num

theorem zipWith_comb_zero (xs ys : List ℚ) (h : xs.length = ys.length) :
    List.zipWith (fun a b => 0 * a + (1 - 0) * b) xs ys = ys := by
  induction xs generalizing ys with
  | nil => rcases ys with _ | _ <;> simp_all
  | cons x xs ih =>
    rcases ys with _ | ⟨y, ys⟩
    · simp at h
    · simp only [List.zipWith_cons_cons]
      rw [ih ys (by simpa using h)]
      norm_num

/-- C2: `multidpo_loss` combines the two `dpo_loss` results (dpo group first,
then — threading the mutable trainer state — the adpo group) elementwise as
`λ·dpo + (1-λ)·adpo`, for losses, chosen rewards and rejected rewards alike;
at `lambda_weight = 1` the combination equals the dpo-group result exactly
and at `lambda_weight = 0` the adpo-group result exactly. -/
theorem C2_multidpo_loss_combination (cfg : LossConfig) (prims : Prims) (st : TrainerState)
    (cd rd ca ra rcd rrd rca rra : List ℚ)
    (dl dcr drr : List ℚ) (st1 : TrainerState) (al acr arr : List ℚ) (st2 : TrainerState)
    (h1 : dpo_loss cfg prims st cd rd rcd rrd = .ok (dl, dcr, drr, st1))
    (h2 : dpo_loss cfg prims st1 ca ra rca rra = .ok (al, acr, arr, st2))
    (hl : dl.length = al.length) (hcr : dcr.length = acr.length) (hrr : drr.length = arr.length) :
    multidpo_loss cfg prims st cd rd ca ra rcd rrd rca rra =
      .ok (List.zipWith (fun a b => cfg.lambda_weight * a + (1 - cfg.lambda_weight) * b) dl al,
           List.zipWith (fun a b => cfg.lambda_weight * a + (1 - cfg.lambda_weight) * b) dcr acr,
           List.zipWith (fun a b => cfg.lambda_weight * a + (1 - cfg.lambda_weight) * b) drr arr,
           st2)
    ∧ (cfg.lambda_weight = 1 →
        multidpo_loss cfg prims st cd rd ca ra rcd rrd rca rra = .ok (dl, dcr, drr, st2))
    ∧ (cfg.lambda_weight = 0 →
        multidpo_loss cfg prims st cd rd ca ra rcd rrd rca rra = .ok (al, acr, arr, st2)) := by
  have hmain : multidpo_loss cfg prims st cd rd ca ra rcd rrd rca rra =
      .ok (List.zipWith (fun a b => cfg.lambda_weight * a + (1 - cfg.lambda_weight) * b) dl al,
           List.zipWith (fun a b => cfg.lambda_weight * a + (1 - cfg.lambda_weight) * b) dcr acr,
           List.zipWith (fun a b => cfg.lambda_weight * a + (1 - cfg.lambda_weight) * b) drr arr,
           st2) := by
    unfold multidpo_loss
    rw [h1]
    simp only [except_bind_ok]
    rw [h2]
    simp only [except_bind_ok, except_pure_eq]
  refine ⟨hmain, fun hw => ?_, fun hw => ?_⟩
  · rw [hmain, hw, zipWith_comb_one dl al hl, zipWith_comb_one dcr acr hcr,
      zipWith_comb_one drr arr hrr]
  · rw [hmain, hw, zipWith_comb_zero dl al hl, zipWith_comb_zero dcr acr hcr,
      zipWith_comb_zero drr arr hrr]

def st0 : TrainerState :=
  ⟨0, ⟨0, 0⟩⟩

/-- Witness for C2 at the end-to-end scenario values of the spec (§8):
`beta = 0.1`, `lambda_weight = 0.5`, `loss_type = sigmoid`,
`reference_free = True`. -/
theorem C2_witness :
    multidpo_loss cfgC3 primsId st0 [-2, -3] [-4, -7/2] [-1, -2] [-5, -4]
        [0, 0] [0, 0] [0, 0] [0, 0] =
      .ok ([-3/10, -1/8], [-3/20, -1/4], [-9/20, -3/8], st0) :=
  ((C2_multidpo_loss_combination cfgC3 primsId st0
      [-2, -3] [-4, -7/2] [-1, -2] [-5, -4] [0, 0] [0, 0] [0, 0] [0, 0]
      [-1/5, -1/20] [-1/5, -3/10] [-2/5, -7/20] st0
      [-2/5, -1/5] [-1/10, -1/5] [-1/2, -2/5] st0
      (by
        norm_num [dpo_loss, dpo_logits, broadcast2, primsId, cfgC3, st0]
        split_ifs with h1 h2
        · exact absurd h1 (by decide)
        all_goals simp only [except_bind_ok]
        all_goals norm_num)
      (by
        norm_num [dpo_loss, dpo_logits, broadcast2, primsId, cfgC3, st0]
        split_ifs with h1 h2
        · exact absurd h1 (by decide)
        all_goals simp only [except_bind_ok]
        all_goals norm_num)
      rfl rfl rfl).1).trans (by norm_num [cfgC3])

/-! ## C4 -/

def cfgExo : LossConfig :=
  { cfgC3 with loss_type := "exo_pair" }

/-- Extracts the state component from a reduced `dpo_loss` success. -/
theorem bind_pure_state (X : List ℚ) (stX : TrainerState) (k1 k2 : List ℚ)
    (l cr rr : List ℚ) (st' : TrainerState)
    (h : (Bind.bind (pure (X, stX) : Except String (List ℚ × TrainerState))
        (fun y => pure (y.1, k1, k2, y.2)) :
        Except String (List ℚ × List ℚ × List ℚ × TrainerState)) = .ok (l, cr, rr, st')) :
    st' = stX := by
  simp only [except_pure_eq, except_bind_ok] at h
  have h2 := congrArg (fun e => match e with
    | Except.ok t => t.2.2.2
    | Except.error _ => stX) h
  simpa using h2.symm

/-- Counterexample for C4: with `loss_type = "exo_pair"` and
`label_smoothing` exactly 0, calling `dpo_loss` permanently overwrites the
trainer's `label_smoothing` configuration field with 1e-3
(multidpo_trainer.py:1474-1475), so the configuration is not unchanged. -/
theorem C4_counterexample :
    dpo_loss cfgExo primsId st0 [1] [0] [0] [0] =
      .ok ([-399/5000], [1/10], [0], ⟨1/1000, ⟨0, 0⟩⟩) ∧
    (1/1000 : ℚ) ≠ st0.label_smoothing := by
  constructor
  · norm_num [dpo_loss, dpo_logits, broadcast2, primsId, cfgExo, cfgC3, st0]
    split_ifs <;> simp_all <;> norm_num
  · norm_num [st0]

/-- C4 (amended): the trainer state after a `dpo_loss` call changes only as
follows — `bco_pair` leaves `label_smoothing` unchanged (it updates only the
running mean), `exo_pair` leaves the running mean unchanged but permanently
sets `label_smoothing` to 1e-3 when it is exactly 0, and every other
`loss_type` leaves the state entirely unchanged. -/
theorem C4_state_effects (cfg : LossConfig) (prims : Prims) (st : TrainerState)
    (c r rc rr2 : List ℚ) (l cr rr : List ℚ) (st' : TrainerState)
    (h : dpo_loss cfg prims st c r rc rr2 = .ok (l, cr, rr, st')) :
    (cfg.loss_type = "bco_pair" → st'.label_smoothing = st.label_smoothing) ∧
    (cfg.loss_type = "exo_pair" →
      st'.running = st.running ∧
      (st.label_smoothing = 0 → st'.label_smoothing = 1/1000) ∧
      (st.label_smoothing ≠ 0 → st' = st)) ∧
    (cfg.loss_type ≠ "bco_pair" → cfg.loss_type ≠ "exo_pair" → st' = st) := by
  unfold dpo_loss at h
  cases hlog : dpo_logits cfg prims c r rc rr2 with
  | error e => rw [hlog] at h; simp at h
  | ok logits =>
    rw [hlog] at h
    simp only [except_bind_ok] at h
    by_cases hsig : cfg.loss_type = "sigmoid"
    · rw [if_pos hsig] at h
      have hst := bind_pure_state _ _ _ _ _ _ _ _ h
      exact ⟨fun hb => absurd (hsig.symm.trans hb) (by decide),
        fun hb => absurd (hsig.symm.trans hb) (by decide), fun _ _ => hst⟩
    rw [if_neg hsig] at h
    by_cases hrob : cfg.loss_type = "robust"
    · rw [if_pos hrob] at h
      have hst := bind_pure_state _ _ _ _ _ _ _ _ h
      exact ⟨fun hb => absurd (hrob.symm.trans hb) (by decide),
        fun hb => absurd (hrob.symm.trans hb) (by decide), fun _ _ => hst⟩
    rw [if_neg hrob] at h
    by_cases hexo : cfg.loss_type = "exo_pair"
    · rw [if_pos hexo] at h
      have hst := bind_pure_state _ _ _ _ _ _ _ _ h
      refine ⟨fun hb => absurd (hexo.symm.trans hb) (by decide), fun _ => ?_,
        fun _ hb => absurd hexo hb⟩
      by_cases hls : st.label_smoothing = 0
      · rw [if_pos hls] at hst
        exact ⟨by rw [hst], fun _ => by rw [hst], fun hne => absurd hls hne⟩
      · rw [if_neg hls] at hst
        exact ⟨by rw [hst], fun h0 => absurd h0 hls, fun _ => hst⟩
    rw [if_neg hexo] at h
    by_cases hhin : cfg.loss_type = "hinge"
    · rw [if_pos hhin] at h
      have hst := bind_pure_state _ _ _ _ _ _ _ _ h
      exact ⟨fun hb => absurd (hhin.symm.trans hb) (by decide),
        fun hb => absurd (hhin.symm.trans hb) (by decide), fun _ _ => hst⟩
    rw [if_neg hhin] at h
    by_cases hipo : cfg.loss_type = "ipo"
    · rw [if_pos hipo] at h
      have hst := bind_pure_state _ _ _ _ _ _ _ _ h
      exact ⟨fun hb => absurd (hipo.symm.trans hb) (by decide),
        fun hb => absurd (hipo.symm.trans hb) (by decide), fun _ _ => hst⟩
    rw [if_neg hipo] at h
    by_cases hbco : cfg.loss_type = "bco_pair"
    · rw [if_pos hbco] at h
      have hst := bind_pure_state _ _ _ _ _ _ _ _ h
      exact ⟨fun _ => by rw [hst], fun hb => absurd (hbco.symm.trans hb) (by decide),
        fun hb _ => absurd hbco hb⟩
    rw [if_neg hbco] at h
    by_cases hsppo : cfg.loss_type = "sppo_hard"
    · rw [if_pos hsppo] at h
      have hst := bind_pure_state _ _ _ _ _ _ _ _ h
      exact ⟨fun hb => absurd (hsppo.symm.trans hb) (by decide),
        fun hb => absurd (hsppo.symm.trans hb) (by decide), fun _ _ => hst⟩
    rw [if_neg hsppo] at h
    by_cases hnca : cfg.loss_type = "nca_pair"
    · rw [if_pos hnca] at h
      have hst := bind_pure_state _ _ _ _ _ _ _ _ h
      exact ⟨fun hb => absurd (hnca.symm.trans hb) (by decide),
        fun hb => absurd (hnca.symm.trans hb) (by decide), fun _ _ => hst⟩
    rw [if_neg hnca] at h
    by_cases haotp : cfg.loss_type = "aot_pair"
    · rw [if_pos haotp] at h
      have hst := bind_pure_state _ _ _ _ _ _ _ _ h
      exact ⟨fun hb => absurd (haotp.symm.trans hb) (by decide),
        fun hb => absurd (haotp.symm.trans hb) (by decide), fun _ _ => hst⟩
    rw [if_neg haotp] at h
    by_cases haot : cfg.loss_type = "aot"
    · rw [if_pos haot] at h
      have hst := bind_pure_state _ _ _ _ _ _ _ _ h
      exact ⟨fun hb => absurd (haot.symm.trans hb) (by decide),
        fun hb => absurd (haot.symm.trans hb) (by decide), fun _ _ => hst⟩
    rw [if_neg haot] at h
    by_cases hapoz : cfg.loss_type = "apo_zero"
    · rw [if_pos hapoz] at h
      have hst := bind_pure_state _ _ _ _ _ _ _ _ h
      exact ⟨fun hb => absurd (hapoz.symm.trans hb) (by decide),
        fun hb => absurd (hapoz.symm.trans hb) (by decide), fun _ _ => hst⟩
    rw [if_neg hapoz] at h
    by_cases hapod : cfg.loss_type = "apo_down"
    · rw [if_pos hapod] at h
      have hst := bind_pure_state _ _ _ _ _ _ _ _ h
      exact ⟨fun hb => absurd (hapod.symm.trans hb) (by decide),
        fun hb => absurd (hapod.symm.trans hb) (by decide), fun _ _ => hst⟩
    rw [if_neg hapod] at h
    by_cases hdis : cfg.loss_type = "discopop"
    · rw [if_pos hdis] at h
      have hst := bind_pure_state _ _ _ _ _ _ _ _ h
      exact ⟨fun hb => absurd (hdis.symm.trans hb) (by decide),
        fun hb => absurd (hdis.symm.trans hb) (by decide), fun _ _ => hst⟩
    rw [if_neg hdis] at h
    simp only [except_bind_error] at h
    exact absurd h (by simp)

/-- Witness for C4 at a concrete `exo_pair` call with `label_smoothing = 0`. -/
theorem C4_witness :
    (cfgExo.loss_type = "bco_pair" →
      (⟨1/1000, ⟨0, 0⟩⟩ : TrainerState).label_smoothing = st0.label_smoothing) ∧
    (cfgExo.loss_type = "exo_pair" →
      (⟨1/1000, ⟨0, 0⟩⟩ : TrainerState).running = st0.running ∧
      (st0.label_smoothing = 0 →
        (⟨1/1000, ⟨0, 0⟩⟩ : TrainerState).label_smoothing = 1/1000) ∧
      (st0.label_smoothing ≠ 0 → (⟨1/1000, ⟨0, 0⟩⟩ : TrainerState) = st0)) ∧
    (cfgExo.loss_type ≠ "bco_pair" → cfgExo.loss_type ≠ "exo_pair" →
      (⟨1/1000, ⟨0, 0⟩⟩ : TrainerState) = st0) :=
  C4_state_effects cfgExo primsId st0 [1] [0] [0] [0]
    [-399/5000] [1/10] [0] ⟨1/1000, ⟨0, 0⟩⟩
    (by
      norm_num [dpo_loss, dpo_logits, broadcast2, primsId, cfgExo, cfgC3, st0]
      split_ifs <;> simp_all <;> norm_num)

/-! ## C6 -/

theorem broadcast2_ok_of_length {f : ℚ → ℚ → ℚ} {a b : List ℚ} (h : a.length = b.length) :
    broadcast2 f a b = .ok (List.zipWith f a b) := by
  unfold broadcast2
  rw [if_pos h]

theorem dpo_logits_ok (cfg : LossConfig) (prims : Prims) (c r rc rr2 : List ℚ)
    (h1 : c.length = r.length) (h2 : rc.length = rr2.length) (h3 : c.length = rc.length) :
    ∃ lg, dpo_logits cfg prims c r rc rr2 = .ok lg := by
  unfold dpo_logits
  by_cases hfd : cfg.f_divergence_type = .alpha_divergence
  · rw [if_pos hfd]
    exact ⟨_, rfl⟩
  · rw [if_neg hfd]
    by_cases href : cfg.reference_free = true
    · rw [if_pos href]
      dsimp only
      rw [broadcast2_right_zero]
      simp only [except_bind_ok]
      by_cases hjs : cfg.f_divergence_type = .js_divergence
      · rw [if_pos hjs]; exact ⟨_, rfl⟩
      · rw [if_neg hjs]; exact ⟨_, rfl⟩
    · rw [if_neg href]
      dsimp only
      rw [broadcast2_ok_of_length (by simp [List.length_zipWith]; omega)]
      simp only [except_bind_ok]
      by_cases hjs : cfg.f_divergence_type = .js_divergence
      · rw [if_pos hjs]; exact ⟨_, rfl⟩
      · rw [if_neg hjs]; exact ⟨_, rfl⟩

/-- Counterexample for C6: an unsupported `loss_type` such as `"bogus"` is
NOT rejected at trainer construction — the only construction-time
`loss_type` rejection is `"kto_pair"` (multidpo_trainer.py:469-479); the
construction-time check passes. -/
theorem C6_counterexample :
    init_loss_type_check "bogus" = .ok () ∧ "bogus" ∉ supported_loss_types :=
  ⟨rfl, by decide⟩

/-- C6 (amended): an unsupported `loss_type` passes trainer construction
(only `"kto_pair"` is rejected there) and is instead rejected by `dpo_loss`
at loss-computation time, with an error naming the set of valid
alternatives (multidpo_trainer.py:1568-1572). -/
theorem C6_unknown_loss_type (cfg : LossConfig) (prims : Prims) (st : TrainerState)
    (c r rc rr2 : List ℚ)
    (h1 : c.length = r.length) (h2 : rc.length = rr2.length) (h3 : c.length = rc.length)
    (hunk : cfg.loss_type ∉ supported_loss_types) (hkto : cfg.loss_type ≠ "kto_pair") :
    init_loss_type_check cfg.loss_type = .ok () ∧
    dpo_loss cfg prims st c r rc rr2 = .error (unknown_loss_type_message cfg.loss_type) := by
  constructor
  · unfold init_loss_type_check
    rw [if_neg hkto]
  · obtain ⟨lg, hlg⟩ := dpo_logits_ok cfg prims c r rc rr2 h1 h2 h3
    have hne : ∀ x ∈ supported_loss_types, cfg.loss_type ≠ x := by
      intro x hx he
      exact hunk (he ▸ hx)
    unfold dpo_loss
    rw [hlg]
    simp only [except_bind_ok]
    rw [if_neg (hne "sigmoid" (by decide)), if_neg (hne "robust" (by decide)),
      if_neg (hne "exo_pair" (by decide)), if_neg (hne "hinge" (by decide)),
      if_neg (hne "ipo" (by decide)), if_neg (hne "bco_pair" (by decide)),
      if_neg (hne "sppo_hard" (by decide)), if_neg (hne "nca_pair" (by decide)),
      if_neg (hne "aot_pair" (by decide)), if_neg (hne "aot" (by decide)),
      if_neg (hne "apo_zero" (by decide)), if_neg (hne "apo_down" (by decide)),
      if_neg (hne "discopop" (by decide))]
    simp only [except_bind_error]

def cfgBogus : LossConfig :=
  { cfgC3 with loss_type := "bogus" }

/-- Witness for C6 at `loss_type = "bogus"`. -/
theorem C6_witness :
    init_loss_type_check cfgBogus.loss_type = .ok () ∧
    dpo_loss cfgBogus primsId st0 [0] [0] [0] [0] =
      .error (unknown_loss_type_message cfgBogus.loss_type) :=
  C6_unknown_loss_type cfgBogus primsId st0 [0] [0] [0] [0]
    rfl rfl rfl (by decide) (by decide)

/-! ## C7 -/

/-- Counterexample for C7: with an unknown `truncation_mode` the scoring
step does NOT fail when no truncation is needed (`max_length` unset, or not
exceeded): the guard `self.max_length is not None and self.max_length <
attention_mask.size(1)` (multidpo_trainer.py:1868) skips the mode dispatch
entirely and only flushes left. -/
theorem C7_counterexample :
    flush_and_truncate "bogus" none 3 [[0, 1, 1]] [[5, 6, 7]] [[0, 1, 1]] =
      .ok ([[1, 1, 0]], [[6, 7, 5]], [[1, 1, 0]]) := by
  rfl

/-- C7 (amended): the unknown-truncation-mode error is raised only when
`max_length` is configured and exceeded; in that case `keep_start` flushes
left then truncates from the right to `max_length`, `keep_end` flushes
right, truncates from the left, then flushes left, and any other mode fails
with an error naming the offending value and the two valid alternatives.
When `max_length` is unset, or configured but not exceeded, the block only
flushes left, whatever the mode string is. -/
theorem C7_truncation_dispatch (mode : String) (m width : ℕ)
    (am ids lm : List (List ℤ)) :
    (m < width → mode ≠ "keep_start" → mode ≠ "keep_end" →
      flush_and_truncate mode (some m) width am ids lm =
        .error (unknown_truncation_mode_message mode)) ∧
    (m < width →
      flush_and_truncate "keep_start" (some m) width am ids lm =
        .ok ((flush_left am ids lm).1.map (fun r => r.take m),
             (flush_left am ids lm).2.1.map (fun r => r.take m),
             (flush_left am ids lm).2.2.map (fun r => r.take m))) ∧
    (m < width →
      flush_and_truncate "keep_end" (some m) width am ids lm =
        .ok (flush_left ((flush_right am ids lm).1.map (pyTakeLast m))
               ((flush_right am ids lm).2.1.map (pyTakeLast m))
               ((flush_right am ids lm).2.2.map (pyTakeLast m)))) ∧
    (width ≤ m →
      flush_and_truncate mode (some m) width am ids lm = .ok (flush_left am ids lm)) ∧
    (flush_and_truncate mode none width am ids lm = .ok (flush_left am ids lm)) := by
  refine ⟨fun hm h1 h2 => ?_, fun hm => ?_, fun hm => ?_, fun hge => ?_, ?_⟩
  · unfold flush_and_truncate
    dsimp only
    rw [if_pos hm, if_neg h1, if_neg h2]
  · unfold flush_and_truncate
    dsimp only
    rw [if_pos hm, if_pos rfl]
  · unfold flush_and_truncate
    dsimp only
    rw [if_pos hm, if_neg (by decide : ¬("keep_end" = "keep_start")), if_pos rfl]
  · unfold flush_and_truncate
    dsimp only
    rw [if_neg (by omega)]
  · unfold flush_and_truncate
    dsimp only

/-- Witness for C7 at two concrete calls on the same batch: `max_length = 2`
below the width 3 (truncation engaged: all three mode conjuncts real), and
`max_length = 5` above it (the silent not-exceeded conjunct real). -/
theorem C7_witness :
    (((2 : ℕ) < 3 → "bogus" ≠ "keep_start" → "bogus" ≠ "keep_end" →
      flush_and_truncate "bogus" (some 2) 3 [[0, 1, 1]] [[5, 6, 7]] [[0, 1, 1]] =
        .error (unknown_truncation_mode_message "bogus")) ∧
    ((2 : ℕ) < 3 →
      flush_and_truncate "keep_start" (some 2) 3 [[0, 1, 1]] [[5, 6, 7]] [[0, 1, 1]] =
        .ok ((flush_left [[0, 1, 1]] [[5, 6, 7]] [[0, 1, 1]]).1.map (fun r => r.take 2),
             (flush_left [[0, 1, 1]] [[5, 6, 7]] [[0, 1, 1]]).2.1.map (fun r => r.take 2),
             (flush_left [[0, 1, 1]] [[5, 6, 7]] [[0, 1, 1]]).2.2.map (fun r => r.take 2))) ∧
    ((2 : ℕ) < 3 →
      flush_and_truncate "keep_end" (some 2) 3 [[0, 1, 1]] [[5, 6, 7]] [[0, 1, 1]] =
        .ok (flush_left
               ((flush_right [[0, 1, 1]] [[5, 6, 7]] [[0, 1, 1]]).1.map (pyTakeLast 2))
               ((flush_right [[0, 1, 1]] [[5, 6, 7]] [[0, 1, 1]]).2.1.map (pyTakeLast 2))
               ((flush_right [[0, 1, 1]] [[5, 6, 7]] [[0, 1, 1]]).2.2.map (pyTakeLast 2)))) ∧
    ((3 : ℕ) ≤ 2 →
      flush_and_truncate "bogus" (some 2) 3 [[0, 1, 1]] [[5, 6, 7]] [[0, 1, 1]] =
        .ok (flush_left [[0, 1, 1]] [[5, 6, 7]] [[0, 1, 1]])) ∧
    (flush_and_truncate "bogus" none 3 [[0, 1, 1]] [[5, 6, 7]] [[0, 1, 1]] =
      .ok (flush_left [[0, 1, 1]] [[5, 6, 7]] [[0, 1, 1]]))) ∧
    ((3 : ℕ) ≤ 5 →
      flush_and_truncate "bogus" (some 5) 3 [[0, 1, 1]] [[5, 6, 7]] [[0, 1, 1]] =
        .ok (flush_left [[0, 1, 1]] [[5, 6, 7]] [[0, 1, 1]])) :=
  ⟨C7_truncation_dispatch "bogus" 2 3 [[0, 1, 1]] [[5, 6, 7]] [[0, 1, 1]],
   (C7_truncation_dispatch "bogus" 5 3 [[0, 1, 1]] [[5, 6, 7]] [[0, 1, 1]]).2.2.2.1⟩

/-! ## C5 -/

theorem broadcastMinNat_one_left (x : ℕ) (b : List ℕ) (hb : (1 : ℕ) ≠ b.length) :
    broadcastMinNat [x] b = .ok (b.map (fun z => min x z)) := by
  unfold broadcastMinNat
  rw [if_neg (by simpa using hb)]
  rcases b with _ | ⟨u, bs⟩
  · rfl
  · rcases bs with _ | ⟨v, bs⟩ <;> rfl

theorem broadcastMinNat_error (a b : List ℕ) (hab : a.length ≠ b.length)
    (ha : a.length ≠ 1) (hb : b.length ≠ 1) :
    broadcastMinNat a b = .error broadcast_shape_error := by
  unfold broadcastMinNat
  rw [if_neg hab]
  rcases a with _ | ⟨x, as⟩
  · rcases b with _ | ⟨u, bs⟩
    · exact absurd rfl hab
    · rcases bs with _ | ⟨v, bs⟩
      · exact absurd rfl hb
      · rfl
  · rcases as with _ | ⟨y, as⟩
    · exact absurd rfl ha
    · rcases b with _ | ⟨u, bs⟩
      · rfl
      · rcases bs with _ | ⟨v, bs⟩
        · exact absurd rfl hb
        · rfl

/-- C5 (code bug): for every batch with `4N` rows (`N ≥ 1`), the `ld_alpha`
block of `concatenated_forward` fails with a torch broadcast shape error
instead of producing a 4N-length recombination: `rejected_lengths =
completion_lengths[num_examples:]` grabs 3N entries (the code was carried
over from the 2-group DPO layout), so `torch.min((N,), (3N,))` cannot
broadcast for `N ≥ 2`, and for `N = 1` the duplicated min has 6 rows
against the 4-row `per_token_logps`. -/
theorem C5_ld_alpha_always_fails (ld_alpha : ℚ) (N : ℕ) (hN : 1 ≤ N)
    (per_token_logps : List (List ℚ)) (loss_mask : List (List Bool))
    (hrows : per_token_logps.length = 4 * N) (hmask : loss_mask.length = 4 * N) :
    ld_adjust ld_alpha N per_token_logps loss_mask = .error broadcast_shape_error := by
  unfold ld_adjust
  dsimp only
  set cl := loss_mask.map (fun row => (row.filter id).length) with hcl_def
  have hcl : cl.length = 4 * N := by rw [hcl_def]; simp [hmask]
  have hch : (cl.take N).length = N := by simp [hcl]; omega
  have hrj : (cl.drop N).length = 3 * N := by simp [hcl]; omega
  rcases Nat.lt_or_ge N 2 with hN2 | hN2
  · have hNe : N = 1 := by omega
    subst hNe
    obtain ⟨x, hx⟩ := List.length_eq_one.mp hch
    rw [hx, broadcastMinNat_one_left x _ (by rw [hrj]; omega)]
    simp only [except_bind_ok]
    have h6 : (((cl.drop 1).map (fun z => min x z)) ++
        ((cl.drop 1).map (fun z => min x z))).length = 6 := by
      simp [hcl]
    rw [if_neg (by rw [h6, hrows]; omega), if_neg (by rw [h6]; omega),
      if_neg (by rw [hrows]; omega)]
  · rw [broadcastMinNat_error _ _ (by rw [hch, hrj]; omega)
      (by rw [hch]; omega) (by rw [hrj]; omega)]
    simp only [except_bind_error]

/-- Witness for C5: a concrete single-example batch (N = 1, 4 rows). -/
theorem C5_witness :
    ld_adjust (1/2) 1 [[1, 1], [1, 1], [1, 1], [1, 1]]
      [[true, false], [true, true], [true, false], [true, true]] =
      .error broadcast_shape_error :=
  C5_ld_alpha_always_fails (1/2) 1 (by decide)
    [[1, 1], [1, 1], [1, 1], [1, 1]]
    [[true, false], [true, true], [true, false], [true, true]] rfl rfl

/-! ## C9 -/

theorem pyTakeLast_suffix (k : ℕ) (l : List ℤ) : pyTakeLast k l <:+ l := by
  unfold pyTakeLast
  split
  · exact List.suffix_refl l
  · exact List.drop_suffix _ l

theorem pyTakeLast_length_le (k : ℕ) (l : List ℤ) (hk : 1 ≤ k) :
    (pyTakeLast k l).length ≤ k := by
  unfold pyTakeLast
  rw [if_neg (by omega)]
  simp [List.length_drop]
  omega

theorem pyTakeLast_ne_nil (k : ℕ) (l : List ℤ) (hl : l ≠ []) :
    pyTakeLast k l ≠ [] := by
  unfold pyTakeLast
  have hpos := List.length_pos.mpr hl
  split
  · exact hl
  · apply List.ne_nil_of_length_pos
    simp [List.length_drop]
    omega

def tokW : Tokenizer :=
  ⟨fun s => List.replicate s.length 7, none, 9⟩

def rawW : RawFeatures :=
  { prompt := some "ab", chosen_response := some "x", rejected_response := some "y",
    chosen_prompt := some "abc", rejected_prompt := some "abd", response := some "xy" }

/-- Counterexample for C9: the eos token is appended BEFORE the right
truncation to `max_completion_length` (multidpo_trainer.py:817-832), so a
response at or over the limit loses its eos: here `max_completion_length=1`
leaves `chosen_response_input_ids = [7]`, which does not end with the eos
token 9. -/
theorem C9_counterexample :
    tokenize_row rawW tokW (some 5) (some 1) false =
      .ok (.multi {
        prompt_input_ids := [7, 7]
        chosen_response_input_ids := [7]
        rejected_response_input_ids := [7]
        chosen_prompt_input_ids := [7, 7, 7]
        rejected_prompt_input_ids := [7, 7, 7]
        response_input_ids := [7] }) ∧
    ([7] : List ℤ).getLast? ≠ some (9 : ℤ) := by
  constructor
  · rfl
  · decide

/-- C9 (amended): for a multi-objective row (tokenized as the trainer does,
with `add_special_tokens=False`), prompts are left-truncated — each returned
prompt is a suffix of its tokenization, of length at most
`max_prompt_length` when that limit is ≥ 1 — and responses are
right-truncated — each returned response is a prefix of
(tokenization ++ eos), of length at most `max_completion_length`; each
response ends with the eos token provided the limit is absent or large
enough (tokenized length + 1 ≤ limit) to not cut it off; responses are
non-empty provided the limit is absent or ≥ 1, and the prompt is non-empty
provided its tokenization is. -/
theorem C9_tokenize_row_truncation (tok : Tokenizer) (feats : RawFeatures)
    (mpl mcl : Option ℕ) (p cr rr cp rp rs : String)
    (hp : feats.prompt = some p) (hcr : feats.chosen_response = some cr)
    (hrr : feats.rejected_response = some rr) (hcp : feats.chosen_prompt = some cp)
    (hrp : feats.rejected_prompt = some rp) (hrs : feats.response = some rs) :
    ∃ t, tokenize_row feats tok mpl mcl false = .ok (.multi t) ∧
      (t.prompt_input_ids <:+ tok.tok p ∧
       t.chosen_prompt_input_ids <:+ tok.tok cp ∧
       t.rejected_prompt_input_ids <:+ tok.tok rp) ∧
      (∀ m, mpl = some m → 1 ≤ m →
        t.prompt_input_ids.length ≤ m ∧ t.chosen_prompt_input_ids.length ≤ m ∧
        t.rejected_prompt_input_ids.length ≤ m) ∧
      (t.chosen_response_input_ids <+: tok.tok cr ++ [tok.eos_token_id] ∧
       t.rejected_response_input_ids <+: tok.tok rr ++ [tok.eos_token_id] ∧
       t.response_input_ids <+: tok.tok rs ++ [tok.eos_token_id]) ∧
      (∀ m, mcl = some m →
        t.chosen_response_input_ids.length ≤ m ∧
        t.rejected_response_input_ids.length ≤ m ∧
        t.response_input_ids.length ≤ m) ∧
      ((mcl = none ∨ ∃ m, mcl = some m ∧ (tok.tok cr).length + 1 ≤ m) →
        t.chosen_response_input_ids.getLast? = some tok.eos_token_id) ∧
      ((mcl = none ∨ ∃ m, mcl = some m ∧ (tok.tok rr).length + 1 ≤ m) →
        t.rejected_response_input_ids.getLast? = some tok.eos_token_id) ∧
      ((mcl = none ∨ ∃ m, mcl = some m ∧ (tok.tok rs).length + 1 ≤ m) →
        t.response_input_ids.getLast? = some tok.eos_token_id) ∧
      ((mcl = none ∨ ∃ m, mcl = some m ∧ 1 ≤ m) →
        t.chosen_response_input_ids ≠ [] ∧ t.rejected_response_input_ids ≠ [] ∧
        t.response_input_ids ≠ []) ∧
      (tok.tok p ≠ [] → t.prompt_input_ids ≠ []) := by
  have hres : tokenize_row feats tok mpl mcl false = .ok (.multi {
      prompt_input_ids :=
        match mpl with
        | some m => pyTakeLast m (tok.tok p)
        | none => tok.tok p
      chosen_response_input_ids :=
        match mcl with
        | some m => (tok.tok cr ++ [tok.eos_token_id]).take m
        | none => tok.tok cr ++ [tok.eos_token_id]
      rejected_response_input_ids :=
        match mcl with
        | some m => (tok.tok rr ++ [tok.eos_token_id]).take m
        | none => tok.tok rr ++ [tok.eos_token_id]
      chosen_prompt_input_ids :=
        match mpl with
        | some m => pyTakeLast m (tok.tok cp)
        | none => tok.tok cp
      rejected_prompt_input_ids :=
        match mpl with
        | some m => pyTakeLast m (tok.tok rp)
        | none => tok.tok rp
      response_input_ids :=
        match mcl with
        | some m => (tok.tok rs ++ [tok.eos_token_id]).take m
        | none => tok.tok rs ++ [tok.eos_token_id] }) := by
    unfold tokenize_row
    rw [hp, hcr, hrr, hcp, hrp, hrs]
    simp only [Option.isSome_some, Bool.and_self, Option.getD_some, Bool.true_and,
      if_true, Bool.and_true]
    rfl
  refine ⟨_, hres, ⟨?_, ?_, ?_⟩, ?_, ⟨?_, ?_, ?_⟩, ?_, ?_, ?_, ?_, ?_, ?_⟩
  · rcases mpl with _ | m
    · exact List.suffix_refl _
    · exact pyTakeLast_suffix m _
  · rcases mpl with _ | m
    · exact List.suffix_refl _
    · exact pyTakeLast_suffix m _
  · rcases mpl with _ | m
    · exact List.suffix_refl _
    · exact pyTakeLast_suffix m _
  · rintro m rfl hm
    exact ⟨pyTakeLast_length_le m _ hm, pyTakeLast_length_le m _ hm,
      pyTakeLast_length_le m _ hm⟩
  · rcases mcl with _ | m
    · exact List.prefix_refl _
    · exact List.take_prefix m _
  · rcases mcl with _ | m
    · exact List.prefix_refl _
    · exact List.take_prefix m _
  · rcases mcl with _ | m
    · exact List.prefix_refl _
    · exact List.take_prefix m _
  · rintro m rfl
    refine ⟨?_, ?_, ?_⟩ <;> simpa using Nat.min_le_left m _
  · rintro (rfl | ⟨m, rfl, hm⟩)
    · exact List.getLast?_concat _
    · dsimp only
      rw [List.take_of_length_le (by simpa using hm)]
      exact List.getLast?_concat _
  · rintro (rfl | ⟨m, rfl, hm⟩)
    · exact List.getLast?_concat _
    · dsimp only
      rw [List.take_of_length_le (by simpa using hm)]
      exact List.getLast?_concat _
  · rintro (rfl | ⟨m, rfl, hm⟩)
    · exact List.getLast?_concat _
    · dsimp only
      rw [List.take_of_length_le (by simpa using hm)]
      exact List.getLast?_concat _
  · rintro (rfl | ⟨m, rfl, hm⟩)
    · refine ⟨?_, ?_, ?_⟩ <;> simp
    · refine ⟨?_, ?_, ?_⟩ <;>
        (apply List.ne_nil_of_length_pos; simp [List.length_take]; omega)
  · intro hne
    rcases mpl with _ | m
    · exact hne
    · exact pyTakeLast_ne_nil m _ hne

/-- Witness for C9 at the concrete tokenizer and row of the counterexample
with generous limits. -/
theorem C9_witness :
    ∃ t, tokenize_row rawW tokW (some 5) (some 4) false = .ok (.multi t) ∧
      (t.prompt_input_ids <:+ tokW.tok "ab" ∧
       t.chosen_prompt_input_ids <:+ tokW.tok "abc" ∧
       t.rejected_prompt_input_ids <:+ tokW.tok "abd") ∧
      (∀ m, (some 5 : Option ℕ) = some m → 1 ≤ m →
        t.prompt_input_ids.length ≤ m ∧ t.chosen_prompt_input_ids.length ≤ m ∧
        t.rejected_prompt_input_ids.length ≤ m) ∧
      (t.chosen_response_input_ids <+: tokW.tok "x" ++ [tokW.eos_token_id] ∧
       t.rejected_response_input_ids <+: tokW.tok "y" ++ [tokW.eos_token_id] ∧
       t.response_input_ids <+: tokW.tok "xy" ++ [tokW.eos_token_id]) ∧
      (∀ m, (some 4 : Option ℕ) = some m →
        t.chosen_response_input_ids.length ≤ m ∧
        t.rejected_response_input_ids.length ≤ m ∧
        t.response_input_ids.length ≤ m) ∧
      (((some 4 : Option ℕ) = none ∨ ∃ m, (some 4 : Option ℕ) = some m ∧ (tokW.tok "x").length + 1 ≤ m) →
        t.chosen_response_input_ids.getLast? = some tokW.eos_token_id) ∧
      (((some 4 : Option ℕ) = none ∨ ∃ m, (some 4 : Option ℕ) = some m ∧ (tokW.tok "y").length + 1 ≤ m) →
        t.rejected_response_input_ids.getLast? = some tokW.eos_token_id) ∧
      (((some 4 : Option ℕ) = none ∨ ∃ m, (some 4 : Option ℕ) = some m ∧ (tokW.tok "xy").length + 1 ≤ m) →
        t.response_input_ids.getLast? = some tokW.eos_token_id) ∧
      (((some 4 : Option ℕ) = none ∨ ∃ m, (some 4 : Option ℕ) = some m ∧ 1 ≤ m) →
        t.chosen_response_input_ids ≠ [] ∧ t.rejected_response_input_ids ≠ [] ∧
        t.response_input_ids ≠ []) ∧
      (tokW.tok "ab" ≠ [] → t.prompt_input_ids ≠ []) :=
  C9_tokenize_row_truncation tokW rawW (some 5) (some 4) "ab" "x" "y" "abc" "abd" "xy"
    rfl rfl rfl rfl rfl rfl

/-! ## C8 -/

/-- A collated batch holding the twelve multi-objective tensors. -/
def multiBatch (p pm crsp crspm rrsp rrspm cp cpm rp rpm rsp rspm : Tensor2) :
    CollatedBatch :=
  { prompt_input_ids := some p
    prompt_attention_mask := some pm
    chosen_response_input_ids := some crsp
    chosen_response_attention_mask := some crspm
    rejected_response_input_ids := some rrsp
    rejected_response_attention_mask := some rrspm
    chosen_prompt_input_ids := some cp
    chosen_prompt_attention_mask := some cpm
    rejected_prompt_input_ids := some rp
    rejected_prompt_attention_mask := some rpm
    response_input_ids := some rsp
    response_attention_mask := some rspm }

theorem concatenated_inputs_multi
    (p pm crsp crspm rrsp rrspm cp cpm rp rpm rsp rspm : Tensor2) (pv : ℤ) :
    concatenated_inputs (multiBatch p pm crsp crspm rrsp rrspm cp cpm rp rpm rsp rspm) pv =
      .ok {
        prompt_input_ids := vcat4
          (pad_to_length_left p (max p.width (max cp.width rp.width)) pv)
          (pad_to_length_left p (max p.width (max cp.width rp.width)) pv)
          (pad_to_length_left cp (max p.width (max cp.width rp.width)) pv)
          (pad_to_length_left rp (max p.width (max cp.width rp.width)) pv)
        prompt_attention_mask := vcat4
          (pad_to_length_left pm (max p.width (max cp.width rp.width)) 0)
          (pad_to_length_left pm (max p.width (max cp.width rp.width)) 0)
          (pad_to_length_left cpm (max p.width (max cp.width rp.width)) 0)
          (pad_to_length_left rpm (max p.width (max cp.width rp.width)) 0)
        completion_input_ids := vcat4
          (pad_to_length_right crsp (max crsp.width (max rrsp.width rsp.width)) pv)
          (pad_to_length_right rrsp (max crsp.width (max rrsp.width rsp.width)) pv)
          (pad_to_length_right rsp (max crsp.width (max rrsp.width rsp.width)) pv)
          (pad_to_length_right rsp (max crsp.width (max rrsp.width rsp.width)) pv)
        completion_attention_mask := vcat4
          (pad_to_length_right crspm (max crsp.width (max rrsp.width rsp.width)) 0)
          (pad_to_length_right rrspm (max crsp.width (max rrsp.width rsp.width)) 0)
          (pad_to_length_right rspm (max crsp.width (max rrsp.width rsp.width)) 0)
          (pad_to_length_right rspm (max crsp.width (max rrsp.width rsp.width)) 0) } := rfl

/-- C8: the four prompt variants assembled by `concatenated_inputs` are
`[prompt, prompt, chosen_prompt, rejected_prompt]`, each independently
left-padded to the maximum width among
`{prompt, chosen_prompt, rejected_prompt}`, with the configured padding
value for the input ids and 0 for the attention masks. (The padding helper
`pad_to_length` lives in trainer utils, outside the sources; its direction
is modelled from the spec, §4.1.) -/
theorem C8_prompt_variants
    (p pm crsp crspm rrsp rrspm cp cpm rp rpm rsp rspm : Tensor2) (pv : ℤ) :
    ∃ out, concatenated_inputs
        (multiBatch p pm crsp crspm rrsp rrspm cp cpm rp rpm rsp rspm) pv = .ok out ∧
      out.prompt_input_ids = vcat4
        (pad_to_length_left p (max p.width (max cp.width rp.width)) pv)
        (pad_to_length_left p (max p.width (max cp.width rp.width)) pv)
        (pad_to_length_left cp (max p.width (max cp.width rp.width)) pv)
        (pad_to_length_left rp (max p.width (max cp.width rp.width)) pv) ∧
      out.prompt_attention_mask = vcat4
        (pad_to_length_left pm (max p.width (max cp.width rp.width)) 0)
        (pad_to_length_left pm (max p.width (max cp.width rp.width)) 0)
        (pad_to_length_left cpm (max p.width (max cp.width rp.width)) 0)
        (pad_to_length_left rpm (max p.width (max cp.width rp.width)) 0) :=
  ⟨_, concatenated_inputs_multi p pm crsp crspm rrsp rrspm cp cpm rp rpm rsp rspm pv,
    rfl, rfl⟩

/-! ## C1 -/

theorem getElem?_append_left' {α : Type} (l₁ l₂ : List α) {i : ℕ} (h : i < l₁.length) :
    (l₁ ++ l₂)[i]? = l₁[i]? := by
  simp [List.getElem?_append, h]

theorem getElem?_append_right' {α : Type} (l₁ l₂ : List α) {i : ℕ} (h : l₁.length ≤ i) :
    (l₁ ++ l₂)[i]? = l₂[i - l₁.length]? := by
  rw [List.getElem?_append]
  simp [Nat.not_lt.2 h]

/-- Indexing the concatenation of four equal-length blocks
(`++` associates to the left). -/
theorem get4 {α : Type} (A B C D : List α) (N i : ℕ)
    (hA : A.length = N) (hB : B.length = N) (hC : C.length = N) (hi : i < N) :
    (A ++ B ++ C ++ D)[i]? = A[i]? ∧
    (A ++ B ++ C ++ D)[N + i]? = B[i]? ∧
    (A ++ B ++ C ++ D)[2 * N + i]? = C[i]? ∧
    (A ++ B ++ C ++ D)[3 * N + i]? = D[i]? := by
  have hAB : (A ++ B).length = 2 * N := by simp [hA, hB]; omega
  have hABC : (A ++ B ++ C).length = 3 * N := by simp [hA, hB, hC]; omega
  refine ⟨?_, ?_, ?_, ?_⟩
  · rw [getElem?_append_left' _ _ (by omega), getElem?_append_left' _ _ (by omega),
      getElem?_append_left' _ _ (by omega)]
  · rw [getElem?_append_left' _ _ (by omega), getElem?_append_left' _ _ (by omega),
      getElem?_append_right' _ _ (by omega), hA]
    have h1 : N + i - N = i := by omega
    rw [h1]
  · rw [getElem?_append_left' _ _ (by omega), getElem?_append_right' _ _ (by omega), hAB]
    have h1 : 2 * N + i - 2 * N = i := by omega
    rw [h1]
  · rw [getElem?_append_right' _ _ (by omega), hABC]
    have h1 : 3 * N + i - 3 * N = i := by omega
    rw [h1]

theorem pad_left_rows_length (t : Tensor2) (len : ℕ) (pv : ℤ) :
    (pad_to_length_left t len pv).rows.length = t.rows.length := by
  unfold pad_to_length_left
  split <;> simp

theorem pad_right_rows_length (t : Tensor2) (len : ℕ) (pv : ℤ) :
    (pad_to_length_right t len pv).rows.length = t.rows.length := by
  unfold pad_to_length_right
  split <;> simp

/-- C1: for a batch of N examples, the concatenated prompt and completion
tensors have batch dimension exactly 4N, stacked in the fixed group order
`[chosen_dpo, rejected_dpo, chosen_adpo, rejected_adpo]` with group g
occupying rows `[g·N, (g+1)·N)` and row `g·N + i` holding (the padded form
of) example i's tokens; and the 4-way split at the end of
`concatenated_forward` recovers, for each group, exactly the entries at
positions `g·N + i` of the 4N-length per-sequence log-probability vector —
so `chosen_logps_dpo[i]` (and the three other groups alike) corresponds to
example i of the original batch. -/
theorem C1_concatenated_batch_order
    (p pm crsp crspm rrsp rrspm cp cpm rp rpm rsp rspm : Tensor2) (pv : ℤ) (N i : ℕ)
    (hp : p.rows.length = N) (hpm : pm.rows.length = N)
    (hcrsp : crsp.rows.length = N) (hcrspm : crspm.rows.length = N)
    (hrrsp : rrsp.rows.length = N) (hrrspm : rrspm.rows.length = N)
    (hcp : cp.rows.length = N) (hcpm : cpm.rows.length = N)
    (hrp : rp.rows.length = N) (hrpm : rpm.rows.length = N)
    (hrsp : rsp.rows.length = N) (hrspm : rspm.rows.length = N)
    (hi : i < N) :
    ∃ out, concatenated_inputs
        (multiBatch p pm crsp crspm rrsp rrspm cp cpm rp rpm rsp rspm) pv = .ok out ∧
      out.prompt_input_ids.rows.length = 4 * N ∧
      out.prompt_attention_mask.rows.length = 4 * N ∧
      out.completion_input_ids.rows.length = 4 * N ∧
      out.completion_attention_mask.rows.length = 4 * N ∧
      (out.prompt_input_ids.rows[i]? =
        (pad_to_length_left p (max p.width (max cp.width rp.width)) pv).rows[i]? ∧
       out.prompt_input_ids.rows[N + i]? =
        (pad_to_length_left p (max p.width (max cp.width rp.width)) pv).rows[i]? ∧
       out.prompt_input_ids.rows[2 * N + i]? =
        (pad_to_length_left cp (max p.width (max cp.width rp.width)) pv).rows[i]? ∧
       out.prompt_input_ids.rows[3 * N + i]? =
        (pad_to_length_left rp (max p.width (max cp.width rp.width)) pv).rows[i]?) ∧
      (out.completion_input_ids.rows[i]? =
        (pad_to_length_right crsp (max crsp.width (max rrsp.width rsp.width)) pv).rows[i]? ∧
       out.completion_input_ids.rows[N + i]? =
        (pad_to_length_right rrsp (max crsp.width (max rrsp.width rsp.width)) pv).rows[i]? ∧
       out.completion_input_ids.rows[2 * N + i]? =
        (pad_to_length_right rsp (max crsp.width (max rrsp.width rsp.width)) pv).rows[i]? ∧
       out.completion_input_ids.rows[3 * N + i]? =
        (pad_to_length_right rsp (max crsp.width (max rrsp.width rsp.width)) pv).rows[i]?) ∧
      (∀ L : List ℚ,
        (split_logps L N).1[i]? = L[i]? ∧
        (split_logps L N).2.1[i]? = L[N + i]? ∧
        (split_logps L N).2.2.1[i]? = L[2 * N + i]? ∧
        (split_logps L N).2.2.2[i]? = L[3 * N + i]?) := by
  refine ⟨_, concatenated_inputs_multi p pm crsp crspm rrsp rrspm cp cpm rp rpm rsp rspm pv,
    ?_, ?_, ?_, ?_, ?_, ?_, ?_⟩
  · simp [vcat4, pad_left_rows_length, hp, hcp, hrp]
    omega
  · simp [vcat4, pad_left_rows_length, hpm, hcpm, hrpm]
    omega
  · simp [vcat4, pad_right_rows_length, hcrsp, hrrsp, hrsp]
    omega
  · simp [vcat4, pad_right_rows_length, hcrspm, hrrspm, hrspm]
    omega
  · exact get4 _ _ _ _ N i
      (by rw [pad_left_rows_length]; exact hp)
      (by rw [pad_left_rows_length]; exact hp)
      (by rw [pad_left_rows_length]; exact hcp) hi
  · exact get4 _ _ _ _ N i
      (by rw [pad_right_rows_length]; exact hcrsp)
      (by rw [pad_right_rows_length]; exact hrrsp)
      (by rw [pad_right_rows_length]; exact hrsp) hi
  · intro L
    refine ⟨?_, ?_, ?_, ?_⟩ <;>
      simp [split_logps, List.getElem?_take, List.getElem?_drop, hi]

/-- Witness for C1: a concrete batch with N = 1 (i = 0), padding value 99. -/
theorem C1_witness :
    ∃ out, concatenated_inputs
        (multiBatch ⟨3, [[1, 2, 3]]⟩ ⟨3, [[1, 1, 1]]⟩ ⟨2, [[4, 5]]⟩ ⟨2, [[1, 1]]⟩
          ⟨1, [[6]]⟩ ⟨1, [[1]]⟩ ⟨4, [[1, 2, 3, 4]]⟩ ⟨4, [[1, 1, 1, 1]]⟩
          ⟨2, [[8, 9]]⟩ ⟨2, [[1, 1]]⟩ ⟨2, [[5, 5]]⟩ ⟨2, [[1, 1]]⟩) 99 = .ok out ∧
      out.prompt_input_ids.rows.length = 4 ∧
      out.prompt_attention_mask.rows.length = 4 ∧
      out.completion_input_ids.rows.length = 4 ∧
      out.completion_attention_mask.rows.length = 4 ∧
      (out.prompt_input_ids.rows[0]? =
        (pad_to_length_left ⟨3, [[1, 2, 3]]⟩ 4 99).rows[0]? ∧
       out.prompt_input_ids.rows[1]? =
        (pad_to_length_left ⟨3, [[1, 2, 3]]⟩ 4 99).rows[0]? ∧
       out.prompt_input_ids.rows[2]? =
        (pad_to_length_left ⟨4, [[1, 2, 3, 4]]⟩ 4 99).rows[0]? ∧
       out.prompt_input_ids.rows[3]? =
        (pad_to_length_left ⟨2, [[8, 9]]⟩ 4 99).rows[0]?) ∧
      (out.completion_input_ids.rows[0]? =
        (pad_to_length_right ⟨2, [[4, 5]]⟩ 2 99).rows[0]? ∧
       out.completion_input_ids.rows[1]? =
        (pad_to_length_right ⟨1, [[6]]⟩ 2 99).rows[0]? ∧
       out.completion_input_ids.rows[2]? =
        (pad_to_length_right ⟨2, [[5, 5]]⟩ 2 99).rows[0]? ∧
       out.completion_input_ids.rows[3]? =
        (pad_to_length_right ⟨2, [[5, 5]]⟩ 2 99).rows[0]?) ∧
      (∀ L : List ℚ,
        (split_logps L 1).1[0]? = L[0]? ∧
        (split_logps L 1).2.1[0]? = L[1]? ∧
        (split_logps L 1).2.2.1[0]? = L[2]? ∧
        (split_logps L 1).2.2.2[0]? = L[3]?) :=
  C1_concatenated_batch_order ⟨3, [[1, 2, 3]]⟩ ⟨3, [[1, 1, 1]]⟩ ⟨2, [[4, 5]]⟩ ⟨2, [[1, 1]]⟩
    ⟨1, [[6]]⟩ ⟨1, [[1]]⟩ ⟨4, [[1, 2, 3, 4]]⟩ ⟨4, [[1, 1, 1, 1]]⟩
    ⟨2, [[8, 9]]⟩ ⟨2, [[1, 1]]⟩ ⟨2, [[5, 5]]⟩ ⟨2, [[1, 1]]⟩ 99 1 0
    rfl rfl rfl rfl rfl rfl rfl rfl rfl rfl rfl rfl (by decide)

/-! ## C10 -/

theorem mapME_getKeyL_ok (l : List CollatorExample)
    (g : CollatorExample → Option (List ℤ)) (name : String)
    (h : ∀ e ∈ l, (g e).isSome) :
    ∃ v, mapME (fun e => getKeyL (g e) name) l = .ok v := by
  induction l with
  | nil => exact ⟨[], rfl⟩
  | cons e es ih =>
    obtain ⟨w, hw⟩ := ih (fun x hx => h x (List.mem_cons_of_mem _ hx))
    obtain ⟨v, hv⟩ := Option.isSome_iff_exists.mp (h e (List.mem_cons_self _ _))
    refine ⟨v :: w, ?_⟩
    unfold mapME
    rw [hv]
    have hk : getKeyL (some v) name = .ok v := rfl
    rw [hk]
    simp only [except_bind_ok]
    rw [hw]
    simp only [except_bind_ok, except_pure_eq]

/-- C10: a collated batch in the legacy 3-key format — which the collator
produces whenever the first example lacks the multi-objective keys — makes
`concatenated_inputs` fail with a missing-key error on its unconditional
read of `chosen_prompt_input_ids` (multidpo_trainer.py:1250-1254), so a
legacy-format batch can never be scored. -/
theorem C10_legacy_batch_unscoreable
    (e0 : CollatorExample) (rest : List CollatorExample) (pad pv : ℤ)
    (h1 : e0.chosen_response_input_ids = none)
    (_h2 : e0.rejected_response_input_ids = none)
    (_h3 : e0.chosen_prompt_input_ids = none)
    (_h4 : e0.rejected_prompt_input_ids = none)
    (_h5 : e0.response_input_ids = none)
    (hall : ∀ e ∈ e0 :: rest, e.prompt_input_ids.isSome ∧
      e.chosen_input_ids.isSome ∧ e.rejected_input_ids.isSome) :
    ∃ batch, torch_call (e0 :: rest) pad = .ok batch ∧
      batch.chosen_input_ids.isSome ∧ batch.rejected_input_ids.isSome ∧
      batch.chosen_prompt_input_ids = none ∧
      concatenated_inputs batch pv = .error ("KeyError: " ++ "chosen_prompt_input_ids") := by
  obtain ⟨vp, hvp⟩ := mapME_getKeyL_ok (e0 :: rest) (fun e => e.prompt_input_ids)
    "prompt_input_ids" (fun e he => (hall e he).1)
  obtain ⟨vc, hvc⟩ := mapME_getKeyL_ok (e0 :: rest) (fun e => e.chosen_input_ids)
    "chosen_input_ids" (fun e he => (hall e he).2.1)
  obtain ⟨vr, hvr⟩ := mapME_getKeyL_ok (e0 :: rest) (fun e => e.rejected_input_ids)
    "rejected_input_ids" (fun e he => (hall e he).2.2)
  have hcall : torch_call (e0 :: rest) pad = .ok {
      prompt_input_ids := some (padStack vp pad true)
      prompt_attention_mask := some (padStack (vp.map ones_like) 0 true)
      chosen_input_ids := some (padStack vc pad false)
      chosen_attention_mask := some (padStack (vc.map ones_like) 0 false)
      rejected_input_ids := some (padStack vr pad false)
      rejected_attention_mask := some (padStack (vr.map ones_like) 0 false) } := by
    unfold torch_call
    dsimp only
    rw [h1]
    simp only [Option.isSome_none, Bool.false_and, Bool.and_false]
    rw [hvp]
    simp only [except_bind_ok, Bool.false_eq_true, if_false]
    rw [hvc]
    simp only [except_bind_ok]
    rw [hvr]
    simp only [except_bind_ok, except_pure_eq, List.map_map]
  refine ⟨_, hcall, by simp, by simp, rfl, ?_⟩
  unfold concatenated_inputs
  rfl

def legacyE1 : CollatorExample :=
  { prompt_input_ids := some [1, 2, 3], chosen_input_ids := some [4, 5],
    rejected_input_ids := some [6] }

def legacyE2 : CollatorExample :=
  { prompt_input_ids := some [7, 8], chosen_input_ids := some [9, 10],
    rejected_input_ids := some [11, 12, 13] }

/-- Witness for C10 at the two legacy examples of the collator docstring
(multidpo_trainer.py:111-115). -/
theorem C10_witness :
    ∃ batch, torch_call [legacyE1, legacyE2] 0 = .ok batch ∧
      batch.chosen_input_ids.isSome ∧ batch.rejected_input_ids.isSome ∧
      batch.chosen_prompt_input_ids = none ∧
      concatenated_inputs batch 0 = .error ("KeyError: " ++ "chosen_prompt_input_ids") :=
  C10_legacy_batch_unscoreable legacyE1 [legacyE2] 0 0
    rfl rfl rfl rfl rfl (by decide)

end MultiDPO









